import Mathlib

/-!
Verification development for the DLC contract-updater module
(`dlc-manager/src/contract_updater.rs`).

The module's functions are shallowly embedded below.  External collaborators
(the `dlc` crate's transaction builder and adaptor-signature primitives, the
wallet, the signer, consensus decoding, message constructors) are out of scope
for the module and are modelled as an explicit environment `DLC.Env` of
function-valued fields that the embedded code threads its calls through,
exactly in the order the source performs them.  Rust `Result` values are
embedded as `Except`/`DlcResult.err`; panics (out-of-bounds slice indexing and
`Option::unwrap` on `None`) are embedded as `DlcResult.panic`.
-/

namespace DLC

/-- Kinds of errors raised by the DLC manager (mirrors `crate::error::Error`;
only the variants this module constructs or that the claims distinguish are
modelled, the rest are collapsed into `Other`). -/
inductive Error where
  | InvalidState : String → Error
  | InvalidParameters : String → Error
  | InvalidAdaptorSignature : Error
  | InvalidRefundSignature : Error
  | Other : String → Error
deriving DecidableEq

/-- Result of running embedded Rust code: a normal value, an `Err` return, or
a panic (out-of-bounds indexing / `unwrap` on `None`). -/
inductive DlcResult (α : Type) where
  | panic : DlcResult α
  | err : Error → DlcResult α
  | ok : α → DlcResult α

/-- Sequencing for `DlcResult`: panics and errors propagate. -/
def DlcResult.bind {α β : Type} : DlcResult α → (α → DlcResult β) → DlcResult β
  | .panic, _ => .panic
  | .err e, _ => .err e
  | .ok a, f => f a

instance : Monad DlcResult where
  pure := DlcResult.ok
  bind := DlcResult.bind

/-- Tests whether a run produced a normal value. -/
def DlcResult.isOk {α : Type} : DlcResult α → Bool
  | .ok _ => true
  | _ => false

/-- Lifts a fallible external call (a Rust `Result` propagated with `?`) into
`DlcResult`. -/
def liftE {α : Type} : Except Error α → DlcResult α
  | .ok a => .ok a
  | .error e => .err e

/-- Rust slice indexing `l[i]`: panics when out of bounds. -/
def listGet {α : Type} (l : List α) (i : Nat) : DlcResult α :=
  match l[i]? with
  | some a => .ok a
  | none => .panic

/-- Rust `Option::unwrap`: panics on `None`. -/
def unwrapO {α : Type} : Option α → DlcResult α
  | some a => .ok a
  | none => .panic

theorem bind_ok {α β : Type} (a : α) (f : α → DlcResult β) :
    DlcResult.bind (.ok a) f = f a := rfl

theorem bind_err {α β : Type} (e : Error) (f : α → DlcResult β) :
    DlcResult.bind (.err e) f = .err e := rfl

theorem bind_panic {α β : Type} (f : α → DlcResult β) :
    DlcResult.bind .panic f = .panic := rfl

theorem monad_bind_eq_bind {α β : Type} (x : DlcResult α) (f : α → DlcResult β) :
    x >>= f = x.bind f := rfl

theorem liftE_ok {α : Type} (a : α) : liftE (.ok a) = .ok a := rfl

theorem liftE_error {α : Type} (e : Error) : (liftE (.error e) : DlcResult α) = .err e := rfl

/-! ## Data model (mirrors the contract snapshot types used by the module) -/

/-- Public keys are opaque to this module. -/
abbrev PublicKey := Nat

/-- Secret keys are opaque to this module. -/
abbrev SecretKey := Nat

/-- Plain ECDSA signatures are opaque to this module. -/
abbrev Sig := Nat

/-- ECDSA adaptor signatures are opaque to this module. -/
abbrev AdaptorSignature := Nat

/-- Script public keys are opaque byte strings. -/
abbrev ScriptBuf := List Nat

/-- A `ContractInfo` is opaque to this module: all its methods are external
(`contract_info.rs` is not part of the module under study) and are reached
through the environment. -/
abbrev ContractInfo := Nat

/-- `AdaptorInfo` values are produced and consumed only by external calls. -/
abbrev AdaptorInfo := Nat

/-- Channel identifiers are opaque. -/
abbrev ChannelId := Nat

/-- Oracle attestations are opaque. -/
abbrev OracleAttestation := Nat

/-- Payouts are opaque: the module only passes them between external calls. -/
abbrev Payout := Nat × Nat

/-- A witness is a stack of byte strings. -/
abbrev Witness := List (List Nat)

/-- A transaction output: value and script. -/
structure TxOut where
  value : Nat
  script_pubkey : ScriptBuf
deriving DecidableEq

/-- A transaction input; the module reads and writes only its witness, the
rest is kept as an opaque tag. -/
structure TxIn where
  previous_output : Nat
  witness : Witness
deriving DecidableEq

/-- A Bitcoin transaction, reduced to the fields the module touches. -/
structure Transaction where
  input : List TxIn
  output : List TxOut
deriving DecidableEq

/-- One entry of `PartyParams::inputs`; the module reads only its serial id. -/
structure TxInputInfo where
  serial_id : Nat
deriving DecidableEq

/-- A funding input as carried in wire messages. -/
structure FundingInput where
  input_serial_id : Nat
  prev_tx : List Nat
  prev_tx_vout : Nat
deriving DecidableEq

/-- `FundingInputInfo` wraps a funding input (the address field is unused by
the module). -/
structure FundingInputInfo where
  funding_input : FundingInput
deriving DecidableEq

/-- One side's parameters for the contract. -/
structure PartyParams where
  fund_pubkey : PublicKey
  change_script_pubkey : ScriptBuf
  change_serial_id : Nat
  payout_script_pubkey : ScriptBuf
  payout_serial_id : Nat
  inputs : List TxInputInfo
  input_amount : Nat
  collateral : Nat
deriving DecidableEq

/-- The fund/CET/refund transaction bundle. -/
structure DlcTransactions where
  fund : Transaction
  cets : List Transaction
  refund : Transaction
  funding_script_pubkey : ScriptBuf
deriving DecidableEq

/-- Snapshot after the offer phase (fields the module reads). -/
structure OfferedContract where
  is_offer_party : Bool
  contract_info : List ContractInfo
  offer_params : PartyParams
  total_collateral : Nat
  fee_rate_per_vb : Nat
  funding_inputs_info : List FundingInputInfo
  fund_output_serial_id : Nat
  cet_locktime : Nat
  refund_locktime : Nat
deriving DecidableEq

/-- Snapshot after the accept phase. -/
structure AcceptedContract where
  offered_contract : OfferedContract
  accept_params : PartyParams
  funding_inputs : List FundingInputInfo
  adaptor_infos : List AdaptorInfo
  adaptor_signatures : Option (List AdaptorSignature)
  accept_refund_signature : Sig
  dlc_transactions : DlcTransactions
deriving DecidableEq

/-- One witness element of a funding signature. -/
structure WitnessElement where
  witness : List Nat
deriving DecidableEq

/-- The witness of one funding input. -/
structure FundingSignature where
  witness_elements : List WitnessElement
deriving DecidableEq

/-- All funding-input witnesses of one party. -/
structure FundingSignatures where
  funding_signatures : List FundingSignature
deriving DecidableEq

/-- Snapshot after the sign phase. -/
structure SignedContract where
  accepted_contract : AcceptedContract
  adaptor_signatures : Option (List AdaptorSignature)
  offer_refund_signature : Sig
  funding_signatures : FundingSignatures
  channel_id : Option ChannelId
deriving DecidableEq

/-- One adaptor signature as carried in wire messages. -/
structure CetAdaptorSignature where
  signature : AdaptorSignature
deriving DecidableEq

/-- The adaptor-signature block of a wire message. -/
structure CetAdaptorSignatures where
  ecdsa_adaptor_signatures : List CetAdaptorSignature
deriving DecidableEq

/-- The accept wire message (fields the module reads). -/
structure AcceptDlc where
  accept_collateral : Nat
  funding_pubkey : PublicKey
  change_spk : ScriptBuf
  change_serial_id : Nat
  payout_spk : ScriptBuf
  payout_serial_id : Nat
  funding_inputs : List FundingInput
  cet_adaptor_signatures : CetAdaptorSignatures
  refund_signature : Sig
deriving DecidableEq

/-- The sign wire message (fields the module reads). -/
structure SignDlc where
  cet_adaptor_signatures : CetAdaptorSignatures
  refund_signature : Sig
  funding_signatures : FundingSignatures
deriving DecidableEq

/-- The closure-time lookup result: which CET and which adaptor signature. -/
structure RangeInfo where
  cet_index : Nat
  adaptor_index : Nat
deriving DecidableEq

/-- Environment of external collaborators: the `dlc` crate primitives, the
`ContractInfo` methods, wallet, signer, codec, and message constructors.  Each
field carries exactly the arguments the module passes at the call site;
in-place mutation of a transaction is modelled by returning the updated
transaction. -/
structure Env where
  get_payouts : ContractInfo → Nat → Except Error (List Payout)
  create_cets : TxIn → ScriptBuf → Nat → ScriptBuf → Nat → List Payout → Nat → List Transaction
  get_adaptor_info : ContractInfo → Nat → SecretKey → ScriptBuf → Nat → List Transaction → Nat →
    Except Error (AdaptorInfo × List AdaptorSignature)
  verify_and_get_adaptor_info : ContractInfo → Nat → PublicKey → ScriptBuf → Nat →
    List Transaction → List AdaptorSignature → Nat → Except Error (AdaptorInfo × Nat)
  verify_adaptor_info : ContractInfo → PublicKey → ScriptBuf → Nat → List Transaction →
    List AdaptorSignature → Nat → AdaptorInfo → Except Error Nat
  get_adaptor_signatures : ContractInfo → AdaptorInfo → SecretKey → ScriptBuf → Nat →
    List Transaction → Except Error (List AdaptorSignature)
  verify_tx_input_sig : Sig → Transaction → Nat → ScriptBuf → Nat → PublicKey →
    Except Error Unit
  get_raw_sig_for_tx_input : Transaction → Nat → ScriptBuf → Nat → SecretKey → Except Error Sig
  consensus_decode : List Nat → Option Transaction
  sign_tx_input : Transaction → Nat → TxOut → Except Error Transaction
  get_secret_key_for_pubkey : PublicKey → Except Error SecretKey
  sign_cet : Transaction → AdaptorSignature → List Sig → SecretKey → PublicKey → ScriptBuf →
    Nat → Except Error Transaction
  sign_multi_sig_input : Transaction → Sig → PublicKey → SecretKey → ScriptBuf → Nat → Nat →
    Except Error Transaction
  get_range_info_and_oracle_sigs : ContractInfo → AdaptorInfo → List (Nat × OracleAttestation) →
    Except Error (RangeInfo × List Sig)
  get_party_params : Nat → Nat → Except Error (PartyParams × SecretKey × List FundingInputInfo)
  get_tx_input_infos : List FundingInput → Except Error (List TxInputInfo × Nat)
  create_dlc_transactions : PartyParams → PartyParams → List Payout → Nat → Nat → Nat → Nat →
    Nat → Except Error DlcTransactions
  get_fund_output : DlcTransactions → TxOut
  get_accept_contract_msg : AcceptedContract → List AdaptorSignature → AcceptDlc
  get_sign_dlc : SignedContract → List AdaptorSignature → SignDlc

/-- Rust `Vec::sort_unstable` on `u64` serial ids: ascending merge sort. -/
def sortU64 (l : List Nat) : List Nat :=
  l.mergeSort (fun a b => a ≤ b)

/-- Conversion `FundingInput → FundingInputInfo` applied to the accept
message's funding inputs (`x.into()` at the call site). -/
def fundingInputToInfo (fi : FundingInput) : FundingInputInfo :=
  { funding_input := fi }

/-! ## `accept_contract` / `accept_contract_internal` -/

/-- The `for contract_info in offered_contract.contract_info.iter().skip(1)`
loop of `accept_contract_internal` (source lines 157–184), threading the
mutable accumulators `cets`, `adaptor_infos` and `adaptor_sigs`. -/
def accept_cets_loop (env : Env) (offered_contract : OfferedContract)
    (accept_params : PartyParams) (adaptor_secret_key : SecretKey)
    (input_script_pubkey : ScriptBuf) (input_value : Nat) (total_collateral : Nat)
    (cet_input : TxIn) :
    List ContractInfo → List Transaction → List AdaptorInfo → List AdaptorSignature →
    DlcResult (List Transaction × List AdaptorInfo × List AdaptorSignature)
  | [], cets, adaptor_infos, adaptor_sigs => .ok (cets, adaptor_infos, adaptor_sigs)
  | contract_info :: rest, cets, adaptor_infos, adaptor_sigs => do
    let payouts ← liftE (env.get_payouts contract_info total_collateral)
    let tmp_cets := env.create_cets cet_input
      offered_contract.offer_params.payout_script_pubkey
      offered_contract.offer_params.payout_serial_id
      accept_params.payout_script_pubkey accept_params.payout_serial_id payouts 0
    let r ← liftE (env.get_adaptor_info contract_info offered_contract.total_collateral
      adaptor_secret_key input_script_pubkey input_value tmp_cets adaptor_sigs.length)
    accept_cets_loop env offered_contract accept_params adaptor_secret_key
      input_script_pubkey input_value total_collateral cet_input rest
      (cets ++ tmp_cets) (adaptor_infos ++ [r.1]) (adaptor_sigs ++ r.2)

/-- Embedding of `accept_contract_internal` (source lines 119–214). -/
def accept_contract_internal (env : Env) (offered_contract : OfferedContract)
    (accept_params : PartyParams) (funding_inputs : List FundingInputInfo)
    (adaptor_secret_key : SecretKey) (input_value : Nat)
    (input_script_pubkey : Option ScriptBuf) (dlc_transactions : DlcTransactions) :
    DlcResult (AcceptedContract × List AdaptorSignature) := do
  let total_collateral := offered_contract.total_collateral
  let input_script_pubkey :=
    input_script_pubkey.getD dlc_transactions.funding_script_pubkey
  let cet0 ← listGet dlc_transactions.cets 0
  let cet_input ← listGet cet0.input 0
  let ci0 ← listGet offered_contract.contract_info 0
  let r0 ← liftE (env.get_adaptor_info ci0 offered_contract.total_collateral
    adaptor_secret_key input_script_pubkey input_value dlc_transactions.cets 0)
  let adaptor_infos := [r0.1]
  let adaptor_sigs := r0.2
  let cets := dlc_transactions.cets
  let acc ← accept_cets_loop env offered_contract accept_params adaptor_secret_key
    input_script_pubkey input_value total_collateral cet_input
    (offered_contract.contract_info.drop 1) cets adaptor_infos adaptor_sigs
  let refund_signature ← liftE (env.get_raw_sig_for_tx_input
    dlc_transactions.refund 0 input_script_pubkey input_value adaptor_secret_key)
  let dlc_transactions2 : DlcTransactions :=
    { fund := dlc_transactions.fund, cets := acc.1,
      refund := dlc_transactions.refund,
      funding_script_pubkey := dlc_transactions.funding_script_pubkey }
  let accepted_contract : AcceptedContract :=
    { offered_contract := offered_contract, adaptor_infos := acc.2.1,
      adaptor_signatures := none, accept_params := accept_params,
      funding_inputs := funding_inputs, dlc_transactions := dlc_transactions2,
      accept_refund_signature := refund_signature }
  .ok (accepted_contract, acc.2.2)

/-- Embedding of `accept_contract` (source lines 70–117). -/
def accept_contract (env : Env) (offered_contract : OfferedContract) :
    DlcResult (AcceptedContract × AcceptDlc) := do
  let total_collateral := offered_contract.total_collateral
  let w ← liftE (env.get_party_params
    (total_collateral - offered_contract.offer_params.collateral)
    offered_contract.fee_rate_per_vb)
  let accept_params := w.1
  let fund_secret_key := w.2.1
  let funding_inputs := w.2.2
  let ci0 ← listGet offered_contract.contract_info 0
  let payouts ← liftE (env.get_payouts ci0 total_collateral)
  let dlc_transactions ← liftE (env.create_dlc_transactions
    offered_contract.offer_params accept_params payouts
    offered_contract.refund_locktime offered_contract.fee_rate_per_vb 0
    offered_contract.cet_locktime offered_contract.fund_output_serial_id)
  let fund_output_value := (env.get_fund_output dlc_transactions).value
  let p ← accept_contract_internal env offered_contract accept_params funding_inputs
    fund_secret_key fund_output_value none dlc_transactions
  let accept_msg := env.get_accept_contract_msg p.1 p.2
  .ok (p.1, accept_msg)

/-! ## `verify_accepted_and_sign_contract` and its internal helper -/

/-- The `for contract_info in offered_contract.contract_info.iter().skip(1)`
loop of `verify_accepted_and_sign_contract_internal` (source lines 346–375),
threading `cets`, `adaptor_infos` and the running `adaptor_index`. -/
def verify_cets_loop (env : Env) (offered_contract : OfferedContract)
    (accept_params : PartyParams) (input_value : Nat)
    (funding_script_pubkey : ScriptBuf) (total_collateral : Nat) (cet_input : TxIn)
    (cet_adaptor_signatures : List AdaptorSignature) :
    List ContractInfo → List Transaction → List AdaptorInfo → Nat →
    DlcResult (List Transaction × List AdaptorInfo × Nat)
  | [], cets, adaptor_infos, adaptor_index => .ok (cets, adaptor_infos, adaptor_index)
  | contract_info :: rest, cets, adaptor_infos, adaptor_index => do
    let payouts ← liftE (env.get_payouts contract_info total_collateral)
    let tmp_cets := env.create_cets cet_input
      offered_contract.offer_params.payout_script_pubkey
      offered_contract.offer_params.payout_serial_id
      accept_params.payout_script_pubkey accept_params.payout_serial_id payouts 0
    let r ← liftE (env.verify_and_get_adaptor_info contract_info
      offered_contract.total_collateral accept_params.fund_pubkey
      funding_script_pubkey input_value tmp_cets cet_adaptor_signatures adaptor_index)
    verify_cets_loop env offered_contract accept_params input_value
      funding_script_pubkey total_collateral cet_input cet_adaptor_signatures rest
      (cets ++ tmp_cets) (adaptor_infos ++ [r.1]) r.2

/-- The signature-generation loop of `verify_accepted_and_sign_contract_internal`
(source lines 377–393): one `get_adaptor_signatures` call per
`(contract_info, adaptor_info)` pair, extending `own_signatures`. -/
def own_sigs_loop (env : Env) (adaptor_secret : SecretKey)
    (input_script_pubkey : ScriptBuf) (input_value : Nat) (cets : List Transaction) :
    List (ContractInfo × AdaptorInfo) → List AdaptorSignature →
    DlcResult (List AdaptorSignature)
  | [], own_signatures => .ok own_signatures
  | (contract_info, adaptor_info) :: rest, own_signatures => do
    let sigs ← liftE (env.get_adaptor_signatures contract_info adaptor_info
      adaptor_secret input_script_pubkey input_value cets)
    own_sigs_loop env adaptor_secret input_script_pubkey input_value cets rest
      (own_signatures ++ sigs)

/-- The unsorted union of serial ids collected in
`verify_accepted_and_sign_contract_internal` (source lines 395–400): the
offered side's funding-input serial ids chained with the accept side's input
serial ids. -/
def vass_serial_ids (offered_contract : OfferedContract)
    (accept_params : PartyParams) : List Nat :=
  (offered_contract.funding_inputs_info.map
    (fun x => x.funding_input.input_serial_id)) ++
  (accept_params.inputs.map (fun x => x.serial_id))

/-- The body of the witness-collection closure of
`verify_accepted_and_sign_contract_internal` (source lines 407–432) for one
funding input: locate the input's canonical index, decode its previous
transaction, fetch the spent output, sign the fund transaction in place and
extract the resulting witness. -/
def witness_step (env : Env) (input_serial_ids : List Nat) (fund : Transaction)
    (x : FundingInputInfo) : DlcResult (Transaction × Witness) := do
  let input_index ←
    match input_serial_ids.findIdx? (fun y => y == x.funding_input.input_serial_id) with
    | some i => pure i
    | none => .err (.InvalidState
        ("Could not find input for serial id " ++ toString x.funding_input.input_serial_id))
  let tx ←
    match env.consensus_decode x.funding_input.prev_tx with
    | some t => pure t
    | none => .err (.InvalidParameters
        "Could not decode funding input previous tx parameter")
  let vout := x.funding_input.prev_tx_vout
  let tx_out ←
    match tx.output[vout]? with
    | some o => pure o
    | none => .err (.InvalidParameters
        ("Previous tx output not found at index " ++ toString vout))
  let fund ← liftE (env.sign_tx_input fund input_index tx_out)
  let inp ← listGet fund.input input_index
  .ok (fund, inp.witness)

/-- The witness-collection loop over the offered side's funding inputs,
threading the mutated fund transaction (`collect::<Result<Vec<_>, Error>>()`
over the closure embedded as `witness_step`). -/
def witness_loop (env : Env) (input_serial_ids : List Nat) :
    List FundingInputInfo → Transaction → List Witness →
    DlcResult (Transaction × List Witness)
  | [], fund, acc => .ok (fund, acc)
  | x :: rest, fund, acc => do
    let r ← witness_step env input_serial_ids fund x
    witness_loop env input_serial_ids rest r.1 (acc ++ [r.2])

/-- Tail of `verify_accepted_and_sign_contract_internal` after the
verification loop (source lines 377–484): generate own adaptor signatures,
collect the funding witnesses (sorting the serial ids before, and sorting
them again, redundantly, after), produce the offer refund signature and
assemble the `SignedContract`. -/
def vass_finish (env : Env) (offered_contract : OfferedContract)
    (accept_params : PartyParams) (funding_inputs_info : List FundingInputInfo)
    (refund_signature : Sig) (cet_adaptor_signatures : List AdaptorSignature)
    (input_value : Nat) (adaptor_secret : SecretKey)
    (input_script_pubkey : ScriptBuf) (funding_script_pubkey : ScriptBuf)
    (fund : Transaction) (refund : Transaction) (channel_id : Option ChannelId)
    (cets : List Transaction) (adaptor_infos : List AdaptorInfo) :
    DlcResult (SignedContract × List AdaptorSignature) := do
  let own_signatures ← own_sigs_loop env adaptor_secret input_script_pubkey
    input_value cets (offered_contract.contract_info.zip adaptor_infos) []
  let input_serial_ids := sortU64 (vass_serial_ids offered_contract accept_params)
  let wr ← witness_loop env input_serial_ids offered_contract.funding_inputs_info fund []
  let fund := wr.1
  let witnesses := wr.2
  let funding_signatures : List FundingSignature := witnesses.map
    (fun witness =>
      { witness_elements := witness.map (fun z => { witness := z }) })
  let input_serial_ids := sortU64 input_serial_ids
  let offer_refund_signature ← liftE (env.get_raw_sig_for_tx_input refund 0
    input_script_pubkey input_value adaptor_secret)
  let dlc_transactions : DlcTransactions :=
    { fund := fund, cets := cets, refund := refund,
      funding_script_pubkey := funding_script_pubkey }
  let accepted_contract : AcceptedContract :=
    { offered_contract := offered_contract, accept_params := accept_params,
      funding_inputs := funding_inputs_info, adaptor_infos := adaptor_infos,
      adaptor_signatures := some cet_adaptor_signatures,
      accept_refund_signature := refund_signature,
      dlc_transactions := dlc_transactions }
  let signed_contract : SignedContract :=
    { accepted_contract := accepted_contract, adaptor_signatures := none,
      offer_refund_signature := offer_refund_signature,
      funding_signatures := { funding_signatures := funding_signatures },
      channel_id := channel_id }
  let _ := input_serial_ids
  .ok (signed_contract, own_signatures)

/-- Embedding of `verify_accepted_and_sign_contract_internal` (source lines
287–485). -/
def verify_accepted_and_sign_contract_internal (env : Env)
    (offered_contract : OfferedContract) (accept_params : PartyParams)
    (funding_inputs_info : List FundingInputInfo) (refund_signature : Sig)
    (cet_adaptor_signatures : List AdaptorSignature) (input_value : Nat)
    (adaptor_secret : SecretKey) (input_script_pubkey : Option ScriptBuf)
    (counter_adaptor_pk : Option PublicKey) (dlc_transactions : DlcTransactions)
    (channel_id : Option ChannelId) :
    DlcResult (SignedContract × List AdaptorSignature) := do
  let fund := dlc_transactions.fund
  let cets := dlc_transactions.cets
  let refund := dlc_transactions.refund
  let funding_script_pubkey := dlc_transactions.funding_script_pubkey
  let input_script_pubkey := input_script_pubkey.getD funding_script_pubkey
  let counter_adaptor_pk := counter_adaptor_pk.getD accept_params.fund_pubkey
  let _ ← liftE (env.verify_tx_input_sig refund_signature refund 0
    input_script_pubkey input_value counter_adaptor_pk)
  let ci0 ← listGet offered_contract.contract_info 0
  let r0 ← liftE (env.verify_and_get_adaptor_info ci0
    offered_contract.total_collateral counter_adaptor_pk input_script_pubkey
    input_value cets cet_adaptor_signatures 0)
  let adaptor_infos := [r0.1]
  let cet0 ← listGet cets 0
  let cet_input ← listGet cet0.input 0
  let total_collateral :=
    offered_contract.offer_params.collateral + accept_params.collateral
  let acc ← verify_cets_loop env offered_contract accept_params input_value
    funding_script_pubkey total_collateral cet_input cet_adaptor_signatures
    (offered_contract.contract_info.drop 1) cets adaptor_infos r0.2
  vass_finish env offered_contract accept_params funding_inputs_info
    refund_signature cet_adaptor_signatures input_value adaptor_secret
    input_script_pubkey funding_script_pubkey fund refund channel_id acc.1 acc.2.1

/-- Embedding of `verify_accepted_and_sign_contract` (source lines 218–285). -/
def verify_accepted_and_sign_contract (env : Env)
    (offered_contract : OfferedContract) (accept_msg : AcceptDlc) :
    DlcResult (SignedContract × SignDlc) := do
  let ti ← liftE (env.get_tx_input_infos accept_msg.funding_inputs)
  let accept_params : PartyParams :=
    { fund_pubkey := accept_msg.funding_pubkey,
      change_script_pubkey := accept_msg.change_spk,
      change_serial_id := accept_msg.change_serial_id,
      payout_script_pubkey := accept_msg.payout_spk,
      payout_serial_id := accept_msg.payout_serial_id,
      inputs := ti.1, input_amount := ti.2,
      collateral := accept_msg.accept_collateral }
  let cet_adaptor_signatures :=
    accept_msg.cet_adaptor_signatures.ecdsa_adaptor_signatures.map
      (fun x => x.signature)
  let total_collateral := offered_contract.total_collateral
  let ci0 ← listGet offered_contract.contract_info 0
  let payouts ← liftE (env.get_payouts ci0 total_collateral)
  let dlc_transactions ← liftE (env.create_dlc_transactions
    offered_contract.offer_params accept_params payouts
    offered_contract.refund_locktime offered_contract.fee_rate_per_vb 0
    offered_contract.cet_locktime offered_contract.fund_output_serial_id)
  let fund_output_value := (env.get_fund_output dlc_transactions).value
  let fund_privkey ← liftE (env.get_secret_key_for_pubkey
    offered_contract.offer_params.fund_pubkey)
  let p ← verify_accepted_and_sign_contract_internal env offered_contract
    accept_params (accept_msg.funding_inputs.map fundingInputToInfo)
    accept_msg.refund_signature cet_adaptor_signatures fund_output_value
    fund_privkey none none dlc_transactions none
  let signed_msg := env.get_sign_dlc p.1 p.2
  .ok (p.1, signed_msg)

/-! ## `verify_signed_contract` and its internal helper -/

/-- The adaptor re-verification loop of `verify_signed_contract_internal`
(source lines 549–566): one `verify_adaptor_info` call per cached
`(adaptor_info, contract_info)` pair, threading `adaptor_sig_start`. -/
def verify_adaptor_loop (env : Env) (counter_adaptor_pk : PublicKey)
    (input_script_pubkey : ScriptBuf) (input_value : Nat)
    (cets : List Transaction) (cet_adaptor_signatures : List AdaptorSignature) :
    List (AdaptorInfo × ContractInfo) → Nat → DlcResult Nat
  | [], adaptor_sig_start => .ok adaptor_sig_start
  | (adaptor_info, contract_info) :: rest, adaptor_sig_start => do
    let next ← liftE (env.verify_adaptor_info contract_info counter_adaptor_pk
      input_script_pubkey input_value cets cet_adaptor_signatures
      adaptor_sig_start adaptor_info)
    verify_adaptor_loop env counter_adaptor_pk input_script_pubkey input_value
      cets cet_adaptor_signatures rest next

/-- The body of the witness-installation loop of
`verify_signed_contract_internal` (source lines 578–600) for one pair of
offered-side funding input and received funding signature: locate the
canonical index and overwrite that fund-transaction input's witness. -/
def install_witness_step (input_serials : List Nat) (fund_tx : Transaction)
    (p : FundingInputInfo × FundingSignature) : DlcResult Transaction := do
  let input_index ←
    match input_serials.findIdx? (fun y => y == p.1.funding_input.input_serial_id) with
    | some i => pure i
    | none => .err (.InvalidState
        ("Could not find input for serial id " ++ toString p.1.funding_input.input_serial_id))
  let inp ← listGet fund_tx.input input_index
  .ok { fund_tx with
        input := fund_tx.input.set input_index
          { inp with
            witness := p.2.witness_elements.map (fun x => x.witness) } }

/-- The witness-installation loop over the zip of the offered side's funding
inputs with the received funding signatures. -/
def install_witness_loop (input_serials : List Nat) :
    List (FundingInputInfo × FundingSignature) → Transaction →
    DlcResult Transaction
  | [], fund_tx => .ok fund_tx
  | p :: rest, fund_tx => do
    let fund_tx ← install_witness_step input_serials fund_tx p
    install_witness_loop input_serials rest fund_tx

/-- The body of the own-input signing loop of `verify_signed_contract_internal`
(source lines 602–625) for one accept-side funding input: locate the
canonical index, decode the previous transaction, fetch the spent output and
sign the fund transaction in place. -/
def sign_own_step (env : Env) (input_serials : List Nat) (fund_tx : Transaction)
    (funding_input_info : FundingInputInfo) : DlcResult Transaction := do
  let input_index ←
    match input_serials.findIdx?
        (fun y => y == funding_input_info.funding_input.input_serial_id) with
    | some i => pure i
    | none => .err (.InvalidState
        ("Could not find input for serial id " ++
          toString funding_input_info.funding_input.input_serial_id))
  let tx ←
    match env.consensus_decode funding_input_info.funding_input.prev_tx with
    | some t => pure t
    | none => .err (.InvalidParameters
        "Could not decode funding input previous tx parameter")
  let vout := funding_input_info.funding_input.prev_tx_vout
  let tx_out ←
    match tx.output[vout]? with
    | some o => pure o
    | none => .err (.InvalidParameters
        ("Previous tx output not found at index " ++ toString vout))
  liftE (env.sign_tx_input fund_tx input_index tx_out)

/-- The own-input signing loop over the accept side's funding inputs. -/
def sign_own_loop (env : Env) (input_serials : List Nat) :
    List FundingInputInfo → Transaction → DlcResult Transaction
  | [], fund_tx => .ok fund_tx
  | x :: rest, fund_tx => do
    let fund_tx ← sign_own_step env input_serials fund_tx x
    sign_own_loop env input_serials rest fund_tx

/-- Tail of `verify_signed_contract_internal` after the adaptor
re-verification loop (source lines 568–635): sort the union of serial ids,
install the peer witnesses, sign the own inputs and assemble the
`SignedContract`. -/
def vs_finish (env : Env) (accepted_contract : AcceptedContract)
    (refund_signature : Sig) (cet_adaptor_signatures : List AdaptorSignature)
    (funding_signatures : FundingSignatures) (channel_id : Option ChannelId) :
    DlcResult (SignedContract × Transaction) := do
  let offered_contract := accepted_contract.offered_contract
  let input_serials := sortU64
    ((offered_contract.funding_inputs_info ++ accepted_contract.funding_inputs).map
      (fun x => x.funding_input.input_serial_id))
  let fund_tx := accepted_contract.dlc_transactions.fund
  let fund_tx ← install_witness_loop input_serials
    (offered_contract.funding_inputs_info.zip funding_signatures.funding_signatures)
    fund_tx
  let fund_tx ← sign_own_loop env input_serials accepted_contract.funding_inputs fund_tx
  let signed_contract : SignedContract :=
    { accepted_contract := accepted_contract,
      adaptor_signatures := some cet_adaptor_signatures,
      offer_refund_signature := refund_signature,
      funding_signatures := funding_signatures, channel_id := channel_id }
  .ok (signed_contract, fund_tx)

/-- Embedding of `verify_signed_contract_internal` (source lines 514–636). -/
def verify_signed_contract_internal (env : Env)
    (accepted_contract : AcceptedContract) (refund_signature : Sig)
    (cet_adaptor_signatures : List AdaptorSignature)
    (funding_signatures : FundingSignatures) (input_value : Nat)
    (input_script_pubkey : Option ScriptBuf) (counter_adaptor_pk : Option PublicKey)
    (channel_id : Option ChannelId) : DlcResult (SignedContract × Transaction) := do
  let offered_contract := accepted_contract.offered_contract
  let input_script_pubkey := input_script_pubkey.getD
    accepted_contract.dlc_transactions.funding_script_pubkey
  let counter_adaptor_pk := counter_adaptor_pk.getD
    accepted_contract.offered_contract.offer_params.fund_pubkey
  let _ ← liftE (env.verify_tx_input_sig refund_signature
    accepted_contract.dlc_transactions.refund 0 input_script_pubkey input_value
    counter_adaptor_pk)
  let _ ← verify_adaptor_loop env counter_adaptor_pk input_script_pubkey
    input_value accepted_contract.dlc_transactions.cets cet_adaptor_signatures
    (accepted_contract.adaptor_infos.zip offered_contract.contract_info) 0
  vs_finish env accepted_contract refund_signature cet_adaptor_signatures
    funding_signatures channel_id

/-- Embedding of `verify_signed_contract` (source lines 490–512). -/
def verify_signed_contract (env : Env) (accepted_contract : AcceptedContract)
    (sign_msg : SignDlc) : DlcResult (SignedContract × Transaction) :=
  let cet_adaptor_signatures :=
    sign_msg.cet_adaptor_signatures.ecdsa_adaptor_signatures.map
      (fun x => x.signature)
  verify_signed_contract_internal env accepted_contract sign_msg.refund_signature
    cet_adaptor_signatures sign_msg.funding_signatures
    (env.get_fund_output accepted_contract.dlc_transactions).value none none none

/-! ## Variant of the offer-side verification with the redundant second sort
removed (for the refinement claim about source line 448) -/

/-- Tail of `verify_accepted_and_sign_contract_internal` as in `vass_finish`
but with the second `input_serial_ids.sort_unstable()` (source line 448)
removed. -/
def vass_finish_noresort (env : Env) (offered_contract : OfferedContract)
    (accept_params : PartyParams) (funding_inputs_info : List FundingInputInfo)
    (refund_signature : Sig) (cet_adaptor_signatures : List AdaptorSignature)
    (input_value : Nat) (adaptor_secret : SecretKey)
    (input_script_pubkey : ScriptBuf) (funding_script_pubkey : ScriptBuf)
    (fund : Transaction) (refund : Transaction) (channel_id : Option ChannelId)
    (cets : List Transaction) (adaptor_infos : List AdaptorInfo) :
    DlcResult (SignedContract × List AdaptorSignature) := do
  let own_signatures ← own_sigs_loop env adaptor_secret input_script_pubkey
    input_value cets (offered_contract.contract_info.zip adaptor_infos) []
  let input_serial_ids := sortU64 (vass_serial_ids offered_contract accept_params)
  let wr ← witness_loop env input_serial_ids offered_contract.funding_inputs_info fund []
  let fund := wr.1
  let witnesses := wr.2
  let funding_signatures : List FundingSignature := witnesses.map
    (fun witness =>
      { witness_elements := witness.map (fun z => { witness := z }) })
  let offer_refund_signature ← liftE (env.get_raw_sig_for_tx_input refund 0
    input_script_pubkey input_value adaptor_secret)
  let dlc_transactions : DlcTransactions :=
    { fund := fund, cets := cets, refund := refund,
      funding_script_pubkey := funding_script_pubkey }
  let accepted_contract : AcceptedContract :=
    { offered_contract := offered_contract, accept_params := accept_params,
      funding_inputs := funding_inputs_info, adaptor_infos := adaptor_infos,
      adaptor_signatures := some cet_adaptor_signatures,
      accept_refund_signature := refund_signature,
      dlc_transactions := dlc_transactions }
  let signed_contract : SignedContract :=
    { accepted_contract := accepted_contract, adaptor_signatures := none,
      offer_refund_signature := offer_refund_signature,
      funding_signatures := { funding_signatures := funding_signatures },
      channel_id := channel_id }
  .ok (signed_contract, own_signatures)

/-- `verify_accepted_and_sign_contract_internal` with the redundant second
sort of `input_serial_ids` removed. -/
def verify_accepted_and_sign_contract_internal_noresort (env : Env)
    (offered_contract : OfferedContract) (accept_params : PartyParams)
    (funding_inputs_info : List FundingInputInfo) (refund_signature : Sig)
    (cet_adaptor_signatures : List AdaptorSignature) (input_value : Nat)
    (adaptor_secret : SecretKey) (input_script_pubkey : Option ScriptBuf)
    (counter_adaptor_pk : Option PublicKey) (dlc_transactions : DlcTransactions)
    (channel_id : Option ChannelId) :
    DlcResult (SignedContract × List AdaptorSignature) := do
  let fund := dlc_transactions.fund
  let cets := dlc_transactions.cets
  let refund := dlc_transactions.refund
  let funding_script_pubkey := dlc_transactions.funding_script_pubkey
  let input_script_pubkey := input_script_pubkey.getD funding_script_pubkey
  let counter_adaptor_pk := counter_adaptor_pk.getD accept_params.fund_pubkey
  let _ ← liftE (env.verify_tx_input_sig refund_signature refund 0
    input_script_pubkey input_value counter_adaptor_pk)
  let ci0 ← listGet offered_contract.contract_info 0
  let r0 ← liftE (env.verify_and_get_adaptor_info ci0
    offered_contract.total_collateral counter_adaptor_pk input_script_pubkey
    input_value cets cet_adaptor_signatures 0)
  let adaptor_infos := [r0.1]
  let cet0 ← listGet cets 0
  let cet_input ← listGet cet0.input 0
  let total_collateral :=
    offered_contract.offer_params.collateral + accept_params.collateral
  let acc ← verify_cets_loop env offered_contract accept_params input_value
    funding_script_pubkey total_collateral cet_input cet_adaptor_signatures
    (offered_contract.contract_info.drop 1) cets adaptor_infos r0.2
  vass_finish_noresort env offered_contract accept_params funding_inputs_info
    refund_signature cet_adaptor_signatures input_value adaptor_secret
    input_script_pubkey funding_script_pubkey fund refund channel_id acc.1 acc.2.1

/-! ## Spec-modelled adaptor engine

The `ContractInfo` verification methods live in `contract_info.rs`, which is
not part of the module under study; the claims about cursor discipline are
settled against models written from the specification's contract for the
Adaptor Engine. -/

/-- Modelled from the spec: `ContractInfo::verify_and_get_adaptor_info`
consumes exactly as many provided signatures as there are CETs associated
with this contract info, starting at `start_index`; it fails with
`InvalidAdaptorSignature` when any signature in that window is bad (or the
window runs past the end of the list) and returns the next start index. -/
def specVerifyAndGetAdaptorInfo (valid : AdaptorSignature → Bool) :
    ContractInfo → Nat → PublicKey → ScriptBuf → Nat → List Transaction →
    List AdaptorSignature → Nat → Except Error (AdaptorInfo × Nat) :=
  fun _ci _tc _pk _spk _v cets sigs start =>
    if start + cets.length ≤ sigs.length ∧
        ((sigs.drop start).take cets.length).all valid = true then
      .ok (0, start + cets.length)
    else
      .error .InvalidAdaptorSignature

/-- Modelled from the spec: `ContractInfo::verify_adaptor_info` re-verifies
against a cached `AdaptorInfo`, consuming the number of signatures determined
by the cached info (its CET count) from `adaptor_sig_start` on, and returns
the next start index; any bad signature (or a window past the end of the
list) fails with `InvalidAdaptorSignature`. -/
def specVerifyAdaptorInfo (valid : AdaptorSignature → Bool)
    (count : AdaptorInfo → Nat) :
    ContractInfo → PublicKey → ScriptBuf → Nat → List Transaction →
    List AdaptorSignature → Nat → AdaptorInfo → Except Error Nat :=
  fun _ci _pk _spk _v _cets sigs start ai =>
    if start + count ai ≤ sigs.length ∧
        ((sigs.drop start).take (count ai)).all valid = true then
      .ok (start + count ai)
    else
      .error .InvalidAdaptorSignature

/-! ## Spec-side recursion for the multi-`ContractInfo` accept path -/

/-- The claim's description of how `accept_contract_internal` processes the
contract infos after the first: each subsequent contract info's CETs are
created from the shared `cet_input` template, and its `get_adaptor_info` call
receives as start index the number of adaptor signatures produced by all
prior contract infos (`prior_count`), explicitly accumulated here.  Returns
the per-contract-info CET lists, signature lists and adaptor infos. -/
def spec_subsequent_infos (env : Env) (offered_contract : OfferedContract)
    (accept_params : PartyParams) (adaptor_secret_key : SecretKey)
    (input_script_pubkey : ScriptBuf) (input_value : Nat) (total_collateral : Nat)
    (cet_input : TxIn) :
    List ContractInfo → Nat →
    DlcResult (List (List Transaction) × List (List AdaptorSignature) × List AdaptorInfo)
  | [], _prior_count => .ok ([], [], [])
  | contract_info :: rest, prior_count => do
    let payouts ← liftE (env.get_payouts contract_info total_collateral)
    let tmp_cets := env.create_cets cet_input
      offered_contract.offer_params.payout_script_pubkey
      offered_contract.offer_params.payout_serial_id
      accept_params.payout_script_pubkey accept_params.payout_serial_id payouts 0
    let r ← liftE (env.get_adaptor_info contract_info offered_contract.total_collateral
      adaptor_secret_key input_script_pubkey input_value tmp_cets prior_count)
    let tl ← spec_subsequent_infos env offered_contract accept_params
      adaptor_secret_key input_script_pubkey input_value total_collateral cet_input
      rest (prior_count + r.2.length)
    .ok (tmp_cets :: tl.1, r.2 :: tl.2.1, r.1 :: tl.2.2)

/-! ## Closing: `get_signed_cet` / `get_signed_refund` -/

/-- Embedding of `get_signed_cet` (source lines 639–694). -/
def get_signed_cet (env : Env) (contract : SignedContract)
    (contract_info : ContractInfo) (adaptor_info : AdaptorInfo)
    (attestations : List (Nat × OracleAttestation)) : DlcResult Transaction := do
  let ri ← liftE (env.get_range_info_and_oracle_sigs contract_info adaptor_info
    attestations)
  let range_info := ri.1
  let sigs := ri.2
  let cet ← listGet contract.accepted_contract.dlc_transactions.cets
    range_info.cet_index
  let offered_contract := contract.accepted_contract.offered_contract
  let sel ←
    if offered_contract.is_offer_party then do
      let s ← unwrapO contract.accepted_contract.adaptor_signatures
      pure (s, offered_contract.offer_params.fund_pubkey,
        contract.accepted_contract.accept_params.fund_pubkey)
    else do
      let s ← unwrapO contract.adaptor_signatures
      pure (s, contract.accepted_contract.accept_params.fund_pubkey,
        offered_contract.offer_params.fund_pubkey)
  let adaptor_sigs := sel.1
  let fund_pubkey := sel.2.1
  let other_pubkey := sel.2.2
  let funding_sk ← liftE (env.get_secret_key_for_pubkey fund_pubkey)
  let asig ← listGet adaptor_sigs range_info.adaptor_index
  let cet ← liftE (env.sign_cet cet asig sigs funding_sk other_pubkey
    contract.accepted_contract.dlc_transactions.funding_script_pubkey
    (env.get_fund_output contract.accepted_contract.dlc_transactions).value)
  .ok cet

/-- Embedding of `get_signed_refund` (source lines 697–736). -/
def get_signed_refund (env : Env) (contract : SignedContract) :
    DlcResult Transaction := do
  let accepted_contract := contract.accepted_contract
  let offered_contract := accepted_contract.offered_contract
  let funding_script_pubkey := accepted_contract.dlc_transactions.funding_script_pubkey
  let fund_output_value := (env.get_fund_output accepted_contract.dlc_transactions).value
  let sel :=
    if offered_contract.is_offer_party then
      (offered_contract.offer_params.fund_pubkey,
        accepted_contract.accept_params.fund_pubkey,
        accepted_contract.accept_refund_signature)
    else
      (accepted_contract.accept_params.fund_pubkey,
        offered_contract.offer_params.fund_pubkey,
        contract.offer_refund_signature)
  let fund_pubkey := sel.1
  let other_fund_pubkey := sel.2.1
  let other_sig := sel.2.2
  let fund_priv_key ← liftE (env.get_secret_key_for_pubkey fund_pubkey)
  let refund ← liftE (env.sign_multi_sig_input
    accepted_contract.dlc_transactions.refund other_sig other_fund_pubkey
    fund_priv_key funding_script_pubkey fund_output_value 0)
  .ok refund

/-! ## Rewriting support for runs of embedded code -/

@[simp]
theorem ok_bind {α β : Type} (a : α) (f : α → DlcResult β) :
    (DlcResult.ok a >>= f) = f a := rfl

@[simp]
theorem err_bind {α β : Type} (e : Error) (f : α → DlcResult β) :
    ((DlcResult.err e : DlcResult α) >>= f) = .err e := rfl

@[simp]
theorem panic_bind {α β : Type} (f : α → DlcResult β) :
    ((DlcResult.panic : DlcResult α) >>= f) = .panic := rfl

@[simp]
theorem pure_bind_dlc {α β : Type} (a : α) (f : α → DlcResult β) :
    ((pure a : DlcResult α) >>= f) = f a := rfl

@[simp]
theorem bind_pure_dlc {α : Type} (r : DlcResult α) :
    (r >>= DlcResult.ok) = r := by cases r <;> rfl

@[simp]
theorem liftE_ok_simp {α : Type} (a : α) : liftE (.ok a) = .ok a := rfl

@[simp]
theorem liftE_error_simp {α : Type} (e : Error) :
    (liftE (.error e) : DlcResult α) = .err e := rfl

@[simp]
theorem isOk_ok {α : Type} (a : α) : (DlcResult.ok a).isOk = true := rfl

@[simp]
theorem isOk_err {α : Type} (e : Error) : (DlcResult.err e : DlcResult α).isOk = false := rfl

@[simp]
theorem isOk_panic {α : Type} : (DlcResult.panic : DlcResult α).isOk = false := rfl

@[simp]
theorem listGet_cons_zero {α : Type} (a : α) (l : List α) : listGet (a :: l) 0 = .ok a := by
  simp [listGet]

@[simp]
theorem listGet_nil {α : Type} (i : Nat) : (listGet ([] : List α) i) = .panic := by
  simp [listGet]

@[simp]
theorem unwrapO_some {α : Type} (a : α) : unwrapO (some a) = .ok a := rfl

@[simp]
theorem unwrapO_none {α : Type} : (unwrapO (none : Option α)) = .panic := rfl

theorem bind_eq_ok {α β : Type} {x : DlcResult α} {f : α → DlcResult β} {b : β}
    (h : x >>= f = .ok b) : ∃ a, x = .ok a ∧ f a = .ok b := by
  cases x with
  | ok a => exact ⟨a, rfl, h⟩
  | err e => exact DlcResult.noConfusion h
  | panic => exact DlcResult.noConfusion h

theorem liftE_eq_ok {α : Type} {e : Except Error α} {a : α}
    (h : liftE e = .ok a) : e = .ok a := by
  cases e with
  | ok b => cases h; rfl
  | error x => exact DlcResult.noConfusion h

theorem isOk_exists {α : Type} {r : DlcResult α} (h : r.isOk = true) :
    ∃ a, r = .ok a := by
  cases r with
  | ok a => exact ⟨a, rfl⟩
  | err e => simp [DlcResult.isOk] at h
  | panic => simp [DlcResult.isOk] at h

theorem sortU64_idem (l : List Nat) : sortU64 (sortU64 l) = sortU64 l := by
  unfold sortU64
  apply List.mergeSort_of_sorted
  apply List.sorted_mergeSort
  · intro a b c h1 h2
    simp at h1 h2 ⊢
    omega
  · intro a b
    simp [Nat.le_total]

/-! ## Concrete sample data used by witnesses and counterexamples -/

/-- A sample transaction input. -/
def sampleTxIn : TxIn := { previous_output := 1, witness := [[1, 2]] }

/-- A sample transaction with one input and one output. -/
def sampleTx : Transaction :=
  { input := [sampleTxIn], output := [{ value := 100, script_pubkey := [1] }] }

/-- Sample party parameters with a given fund pubkey and collateral. -/
def sampleParty (pk c : Nat) : PartyParams :=
  { fund_pubkey := pk, change_script_pubkey := [2], change_serial_id := 1,
    payout_script_pubkey := [3], payout_serial_id := 2, inputs := [],
    input_amount := 0, collateral := c }

/-- A sample transaction bundle with a single CET. -/
def sampleDlcTxs : DlcTransactions :=
  { fund := { input := [], output := [] }, cets := [sampleTx],
    refund := { input := [], output := [] }, funding_script_pubkey := [9] }

/-- A sample offered contract with one contract info. -/
def sampleOffered : OfferedContract :=
  { is_offer_party := true, contract_info := [1], offer_params := sampleParty 10 40,
    total_collateral := 100, fee_rate_per_vb := 2, funding_inputs_info := [],
    fund_output_serial_id := 0, cet_locktime := 10, refund_locktime := 20 }

/-- A sample accepted contract whose stored adaptor signatures are the accept
side's `[11, 12]`. -/
def sampleAccepted : AcceptedContract :=
  { offered_contract := sampleOffered, accept_params := sampleParty 20 60,
    funding_inputs := [], adaptor_infos := [0],
    adaptor_signatures := some [11, 12], accept_refund_signature := 3,
    dlc_transactions := sampleDlcTxs }

/-- A sample signed contract whose own-field adaptor signatures are the offer
side's `[21, 22]`. -/
def sampleSigned : SignedContract :=
  { accepted_contract := sampleAccepted, adaptor_signatures := some [21, 22],
    offer_refund_signature := 4, funding_signatures := { funding_signatures := [] },
    channel_id := none }

/-- A benign environment: every external call succeeds with simple values. -/
def okEnv : Env :=
  { get_payouts := fun _ _ => .ok [],
    create_cets := fun _ _ _ _ _ _ _ => [],
    get_adaptor_info := fun _ _ _ _ _ _ s => .ok (s, []),
    verify_and_get_adaptor_info := fun _ _ _ _ _ _ _ s => .ok (0, s),
    verify_adaptor_info := fun _ _ _ _ _ _ s _ => .ok s,
    get_adaptor_signatures := fun _ _ _ _ _ _ => .ok [],
    verify_tx_input_sig := fun _ _ _ _ _ _ => .ok (),
    get_raw_sig_for_tx_input := fun _ _ _ _ _ => .ok 7,
    consensus_decode := fun _ => some sampleTx,
    sign_tx_input := fun t _ _ => .ok t,
    get_secret_key_for_pubkey := fun _ => .ok 5,
    sign_cet := fun t _ _ _ _ _ _ => .ok t,
    sign_multi_sig_input := fun t _ _ _ _ _ _ => .ok t,
    get_range_info_and_oracle_sigs := fun _ _ _ => .ok ({ cet_index := 0, adaptor_index := 0 }, []),
    get_party_params := fun c _ => .ok (sampleParty 20 c, 5, []),
    get_tx_input_infos := fun _ => .ok ([], 0),
    create_dlc_transactions := fun _ _ _ _ _ _ _ _ => .ok sampleDlcTxs,
    get_fund_output := fun _ => { value := 100, script_pubkey := [9] },
    get_accept_contract_msg := fun _ _ =>
      { accept_collateral := 0, funding_pubkey := 0, change_spk := [],
        change_serial_id := 0, payout_spk := [], payout_serial_id := 0,
        funding_inputs := [], cet_adaptor_signatures := { ecdsa_adaptor_signatures := [] },
        refund_signature := 0 },
    get_sign_dlc := fun _ _ =>
      { cet_adaptor_signatures := { ecdsa_adaptor_signatures := [] },
        refund_signature := 0, funding_signatures := { funding_signatures := [] } } }

/-! ## Claim C4 -/

/-- C4: `get_signed_cet` always signs with the counter-party's adaptor
signature at the resolved `adaptor_index`: when `is_offer_party` is true it
takes the signature list stored in `accepted_contract.adaptor_signatures`
(the accept side's signatures) and the offer fund pubkey as its own key; when
the flag is false it takes the list stored in the `SignedContract`'s
`adaptor_signatures` field (the offer side's signatures) and the accept fund
pubkey as its own key, in both cases signing the CET at
`range_info.cet_index`. -/
theorem get_signed_cet_selects_counterparty
    (env : Env) (contract : SignedContract) (contract_info : ContractInfo)
    (adaptor_info : AdaptorInfo) (attestations : List (Nat × OracleAttestation))
    (range_info : RangeInfo) (oracle_sigs : List Sig)
    (asigs : List AdaptorSignature) (cet0 : Transaction)
    (asig : AdaptorSignature) (sk : SecretKey)
    (hr : env.get_range_info_and_oracle_sigs contract_info adaptor_info attestations
      = .ok (range_info, oracle_sigs))
    (hc : contract.accepted_contract.dlc_transactions.cets[range_info.cet_index]?
      = some cet0)
    (ha : asigs[range_info.adaptor_index]? = some asig) :
    (contract.accepted_contract.offered_contract.is_offer_party = true →
      contract.accepted_contract.adaptor_signatures = some asigs →
      env.get_secret_key_for_pubkey
        contract.accepted_contract.offered_contract.offer_params.fund_pubkey = .ok sk →
      get_signed_cet env contract contract_info adaptor_info attestations =
        liftE (env.sign_cet cet0 asig oracle_sigs sk
          contract.accepted_contract.accept_params.fund_pubkey
          contract.accepted_contract.dlc_transactions.funding_script_pubkey
          (env.get_fund_output contract.accepted_contract.dlc_transactions).value)) ∧
    (contract.accepted_contract.offered_contract.is_offer_party = false →
      contract.adaptor_signatures = some asigs →
      env.get_secret_key_for_pubkey
        contract.accepted_contract.accept_params.fund_pubkey = .ok sk →
      get_signed_cet env contract contract_info adaptor_info attestations =
        liftE (env.sign_cet cet0 asig oracle_sigs sk
          contract.accepted_contract.offered_contract.offer_params.fund_pubkey
          contract.accepted_contract.dlc_transactions.funding_script_pubkey
          (env.get_fund_output contract.accepted_contract.dlc_transactions).value)) := by
  constructor
  · intro h1 h2 h3
    simp [get_signed_cet, hr, listGet, hc, h1, h2, h3, ha]
  · intro h1 h2 h3
    simp [get_signed_cet, hr, listGet, hc, h1, h2, h3, ha]

/-- Witness for C4: a concrete offer-party closing run that signs the CET at
index 0 with the accept side's adaptor signature `11` and the offer fund key's
secret, presenting the accept fund pubkey as the counter-party key. -/
theorem get_signed_cet_selects_counterparty_witness :
    okEnv.get_range_info_and_oracle_sigs 1 0 [] =
      .ok ({ cet_index := 0, adaptor_index := 0 }, []) ∧
    sampleSigned.accepted_contract.adaptor_signatures = some [11, 12] ∧
    get_signed_cet okEnv sampleSigned 1 0 [] =
      liftE (okEnv.sign_cet sampleTx 11 [] 5 20 [9] 100) :=
  ⟨rfl, rfl,
    (get_signed_cet_selects_counterparty okEnv sampleSigned 1 0 []
      { cet_index := 0, adaptor_index := 0 } [] [11, 12] sampleTx 11 5
      rfl rfl rfl).1 rfl rfl rfl⟩

/-! ## Claim C5 -/

/-- C5: `get_signed_refund` can be invoked by either party and signs the
refund transaction's input 0 with the caller's own fund secret key together
with the counter-party refund signature already stored in the snapshot: when
`is_offer_party` is true it uses `accept_refund_signature` with the accept
fund pubkey as the other key, and when false it uses
`offer_refund_signature` with the offer fund pubkey. -/
theorem get_signed_refund_uses_stored_counterparty_sig
    (env : Env) (contract : SignedContract) (sk : SecretKey) :
    (contract.accepted_contract.offered_contract.is_offer_party = true →
      env.get_secret_key_for_pubkey
        contract.accepted_contract.offered_contract.offer_params.fund_pubkey = .ok sk →
      get_signed_refund env contract =
        liftE (env.sign_multi_sig_input
          contract.accepted_contract.dlc_transactions.refund
          contract.accepted_contract.accept_refund_signature
          contract.accepted_contract.accept_params.fund_pubkey sk
          contract.accepted_contract.dlc_transactions.funding_script_pubkey
          (env.get_fund_output contract.accepted_contract.dlc_transactions).value 0)) ∧
    (contract.accepted_contract.offered_contract.is_offer_party = false →
      env.get_secret_key_for_pubkey
        contract.accepted_contract.accept_params.fund_pubkey = .ok sk →
      get_signed_refund env contract =
        liftE (env.sign_multi_sig_input
          contract.accepted_contract.dlc_transactions.refund
          contract.offer_refund_signature
          contract.accepted_contract.offered_contract.offer_params.fund_pubkey sk
          contract.accepted_contract.dlc_transactions.funding_script_pubkey
          (env.get_fund_output contract.accepted_contract.dlc_transactions).value 0)) := by
  constructor
  · intro h1 h2
    simp [get_signed_refund, h1, h2]
  · intro h1 h2
    simp [get_signed_refund, h1, h2]

/-- Witness for C5: a concrete offer-party refund run that signs input 0 of
the refund transaction with the offer fund key's secret and the stored accept
refund signature, presenting the accept fund pubkey as the other key. -/
theorem get_signed_refund_uses_stored_counterparty_sig_witness :
    sampleSigned.accepted_contract.offered_contract.is_offer_party = true ∧
    get_signed_refund okEnv sampleSigned =
      liftE (okEnv.sign_multi_sig_input sampleDlcTxs.refund 3 20 5 [9] 100 0) :=
  ⟨rfl,
    (get_signed_refund_uses_stored_counterparty_sig okEnv sampleSigned 5).1 rfl rfl⟩

/-! ## Claim C7 -/

/-- C7: the second `sort_unstable` of `input_serial_ids` in
`verify_accepted_and_sign_contract_internal` (source line 448) is redundant:
the vector is not modified between the first sort and the second (sorting
the already-sorted vector returns it unchanged), and the variant of the
function with the second sort removed is extensionally equal to the original
on every input. -/
theorem second_sort_redundant (env : Env) (offered_contract : OfferedContract)
    (accept_params : PartyParams) (funding_inputs_info : List FundingInputInfo)
    (refund_signature : Sig) (cet_adaptor_signatures : List AdaptorSignature)
    (input_value : Nat) (adaptor_secret : SecretKey)
    (input_script_pubkey : Option ScriptBuf) (counter_adaptor_pk : Option PublicKey)
    (dlc_transactions : DlcTransactions) (channel_id : Option ChannelId) :
    verify_accepted_and_sign_contract_internal env offered_contract accept_params
      funding_inputs_info refund_signature cet_adaptor_signatures input_value
      adaptor_secret input_script_pubkey counter_adaptor_pk dlc_transactions
      channel_id =
    verify_accepted_and_sign_contract_internal_noresort env offered_contract
      accept_params funding_inputs_info refund_signature cet_adaptor_signatures
      input_value adaptor_secret input_script_pubkey counter_adaptor_pk
      dlc_transactions channel_id ∧
    sortU64 (sortU64 (vass_serial_ids offered_contract accept_params)) =
      sortU64 (vass_serial_ids offered_contract accept_params) := by
  constructor
  · rfl
  · exact sortU64_idem _

/-! ## Claim C6 -/

/-- C6: during witness assembly in `verify_accepted_and_sign_contract_internal`
(the collection closure, embedded as `witness_step`) and
`verify_signed_contract_internal` (the installation and own-signing loop
bodies, embedded as `install_witness_step` and `sign_own_step`), each failure
mode maps to the stated error kind: a funding-input serial id absent from the
serial-id list yields an `InvalidState` error; a previous transaction that
fails consensus decoding yields an `InvalidParameters` error; and a
`prev_tx_vout` greater than or equal to the decoded transaction's output
count yields an `InvalidParameters` error. -/
theorem witness_assembly_error_kinds
    (env : Env) (input_serial_ids : List Nat) (fund : Transaction)
    (x : FundingInputInfo) (fsig : FundingSignature) :
    (input_serial_ids.findIdx? (fun y => y == x.funding_input.input_serial_id) = none →
      witness_step env input_serial_ids fund x =
        .err (.InvalidState ("Could not find input for serial id " ++
          toString x.funding_input.input_serial_id))) ∧
    (∀ i, input_serial_ids.findIdx? (fun y => y == x.funding_input.input_serial_id) = some i →
      env.consensus_decode x.funding_input.prev_tx = none →
      witness_step env input_serial_ids fund x =
        .err (.InvalidParameters "Could not decode funding input previous tx parameter")) ∧
    (∀ i tx, input_serial_ids.findIdx? (fun y => y == x.funding_input.input_serial_id) = some i →
      env.consensus_decode x.funding_input.prev_tx = some tx →
      tx.output.length ≤ x.funding_input.prev_tx_vout →
      witness_step env input_serial_ids fund x =
        .err (.InvalidParameters ("Previous tx output not found at index " ++
          toString x.funding_input.prev_tx_vout))) ∧
    (input_serial_ids.findIdx? (fun y => y == x.funding_input.input_serial_id) = none →
      install_witness_step input_serial_ids fund (x, fsig) =
        .err (.InvalidState ("Could not find input for serial id " ++
          toString x.funding_input.input_serial_id))) ∧
    (input_serial_ids.findIdx? (fun y => y == x.funding_input.input_serial_id) = none →
      sign_own_step env input_serial_ids fund x =
        .err (.InvalidState ("Could not find input for serial id " ++
          toString x.funding_input.input_serial_id))) ∧
    (∀ i, input_serial_ids.findIdx? (fun y => y == x.funding_input.input_serial_id) = some i →
      env.consensus_decode x.funding_input.prev_tx = none →
      sign_own_step env input_serial_ids fund x =
        .err (.InvalidParameters "Could not decode funding input previous tx parameter")) ∧
    (∀ i tx, input_serial_ids.findIdx? (fun y => y == x.funding_input.input_serial_id) = some i →
      env.consensus_decode x.funding_input.prev_tx = some tx →
      tx.output.length ≤ x.funding_input.prev_tx_vout →
      sign_own_step env input_serial_ids fund x =
        .err (.InvalidParameters ("Previous tx output not found at index " ++
          toString x.funding_input.prev_tx_vout))) := by
  refine ⟨?_, ?_, ?_, ?_, ?_, ?_, ?_⟩
  · intro h
    simp [witness_step, h]
  · intro i h1 h2
    simp [witness_step, h1, h2]
  · intro i tx h1 h2 h3
    simp [witness_step, h1, h2, List.getElem?_eq_none h3]
  · intro h
    simp [install_witness_step, h]
  · intro h
    simp [sign_own_step, h]
  · intro i h1 h2
    simp [sign_own_step, h1, h2]
  · intro i tx h1 h2 h3
    simp [sign_own_step, h1, h2, List.getElem?_eq_none h3]

/-- An environment whose consensus decoder always fails. -/
def noDecodeEnv : Env := { okEnv with consensus_decode := fun _ => none }

/-- A funding input with serial id 6, an undecodable previous transaction and
vout 3. -/
def sampleFundingInput : FundingInputInfo :=
  { funding_input := { input_serial_id := 6, prev_tx := [0], prev_tx_vout := 3 } }

/-- Witness for C6: for a concrete funding input, the serial-id-missing mode
produces `InvalidState`, the decode-failure mode produces
`InvalidParameters`, and the out-of-range vout mode (vout 3 against a
one-output decoded transaction) produces `InvalidParameters`. -/
theorem witness_assembly_error_kinds_witness :
    witness_step okEnv [5] sampleTx sampleFundingInput =
      .err (.InvalidState ("Could not find input for serial id " ++ toString 6)) ∧
    witness_step noDecodeEnv [6] sampleTx sampleFundingInput =
      .err (.InvalidParameters "Could not decode funding input previous tx parameter") ∧
    witness_step okEnv [6] sampleTx sampleFundingInput =
      .err (.InvalidParameters ("Previous tx output not found at index " ++ toString 3)) ∧
    sign_own_step okEnv [5] sampleTx sampleFundingInput =
      .err (.InvalidState ("Could not find input for serial id " ++ toString 6)) :=
  ⟨(witness_assembly_error_kinds okEnv [5] sampleTx sampleFundingInput
      { witness_elements := [] }).1 rfl,
    (witness_assembly_error_kinds noDecodeEnv [6] sampleTx sampleFundingInput
      { witness_elements := [] }).2.1 0 rfl rfl,
    (witness_assembly_error_kinds okEnv [6] sampleTx sampleFundingInput
      { witness_elements := [] }).2.2.1 0 sampleTx rfl rfl
      (by simp [sampleTx, sampleFundingInput]),
    (witness_assembly_error_kinds okEnv [5] sampleTx sampleFundingInput
      { witness_elements := [] }).2.2.2.2.1 rfl⟩

/-! ## Claim C8 -/

/-- C8: `accept_contract` and `verify_accepted_and_sign_contract` index
`offered_contract.contract_info[0]` and `dlc_transactions.cets[0].input[0]`
without bounds checks; when the offered contract carries no contract info, or
the transaction bundle carries no CET (or a first CET without inputs), the
functions panic rather than return an `Err` (provided execution reaches the
indexing, i.e. the external calls made before it succeed). -/
theorem unchecked_indexing_panics :
    (∀ (env : Env) (oc : OfferedContract) w,
      oc.contract_info = [] →
      env.get_party_params (oc.total_collateral - oc.offer_params.collateral)
        oc.fee_rate_per_vb = .ok w →
      accept_contract env oc = .panic) ∧
    (∀ (env : Env) (oc : OfferedContract) (accept_msg : AcceptDlc) z,
      oc.contract_info = [] →
      env.get_tx_input_infos accept_msg.funding_inputs = .ok z →
      verify_accepted_and_sign_contract env oc accept_msg = .panic) ∧
    (∀ (env : Env) (oc : OfferedContract) (ap : PartyParams)
      (fis : List FundingInputInfo) (sk : SecretKey) (v : Nat)
      (isp : Option ScriptBuf) (dt : DlcTransactions),
      dt.cets = [] →
      accept_contract_internal env oc ap fis sk v isp dt = .panic) ∧
    (∀ (env : Env) (oc : OfferedContract) (ap : PartyParams)
      (fis : List FundingInputInfo) (sk : SecretKey) (v : Nat)
      (isp : Option ScriptBuf) (dt : DlcTransactions) (c0 : Transaction),
      dt.cets[0]? = some c0 → c0.input = [] →
      accept_contract_internal env oc ap fis sk v isp dt = .panic) ∧
    (∀ (env : Env) (oc : OfferedContract) (ap : PartyParams)
      (fii : List FundingInputInfo) (rs : Sig) (sigs : List AdaptorSignature)
      (v : Nat) (sk : SecretKey) (isp : Option ScriptBuf)
      (cap : Option PublicKey) (dt : DlcTransactions) (cid : Option ChannelId)
      (ci0 : ContractInfo) (u : Unit) (r0 : AdaptorInfo × Nat),
      env.verify_tx_input_sig rs dt.refund 0 (isp.getD dt.funding_script_pubkey)
        v (cap.getD ap.fund_pubkey) = .ok u →
      oc.contract_info[0]? = some ci0 →
      env.verify_and_get_adaptor_info ci0 oc.total_collateral
        (cap.getD ap.fund_pubkey) (isp.getD dt.funding_script_pubkey) v dt.cets
        sigs 0 = .ok r0 →
      dt.cets = [] →
      verify_accepted_and_sign_contract_internal env oc ap fii rs sigs v sk isp
        cap dt cid = .panic) := by
  refine ⟨?_, ?_, ?_, ?_, ?_⟩
  · intro env oc w h hw
    simp [accept_contract, hw, h]
  · intro env oc accept_msg z h hz
    simp [verify_accepted_and_sign_contract, hz, h]
  · intro env oc ap fis sk v isp dt h
    simp [accept_contract_internal, h]
  · intro env oc ap fis sk v isp dt c0 h1 h2
    simp [accept_contract_internal, listGet, h1, h2]
  · intro env oc ap fii rs sigs v sk isp cap dt cid ci0 u r0 h1 h2 h3 h4
    rw [h4] at h3
    simp [verify_accepted_and_sign_contract_internal, listGet, h1, h2, h3, h4]

/-- A transaction bundle without any CET. -/
def emptyCetsDlcTxs : DlcTransactions := { sampleDlcTxs with cets := [] }

/-- An offered contract without any contract info. -/
def emptyInfoOffered : OfferedContract := { sampleOffered with contract_info := [] }

/-- Witness for C8: concrete panicking runs — `accept_contract` on an offered
contract with no contract info, and `accept_contract_internal` on a bundle
with no CET, both evaluate to a panic, not an `Err`. -/
theorem unchecked_indexing_panics_witness :
    emptyInfoOffered.contract_info = [] ∧
    accept_contract okEnv emptyInfoOffered = .panic ∧
    accept_contract_internal okEnv sampleOffered (sampleParty 20 60) [] 5 100
      none emptyCetsDlcTxs = .panic :=
  ⟨rfl,
    unchecked_indexing_panics.1 okEnv emptyInfoOffered (sampleParty 20 60, 5, [])
      rfl rfl,
    unchecked_indexing_panics.2.2.1 okEnv sampleOffered (sampleParty 20 60) []
      5 100 none emptyCetsDlcTxs rfl⟩

/-! ## Claim C10 -/

/-- C10: `get_signed_cet` calls `unwrap()` on the `Option`-valued
adaptor-signature field it selects: for any `SignedContract` in which that
field (`accepted_contract.adaptor_signatures` when `is_offer_party` is true,
the `SignedContract`'s own `adaptor_signatures` otherwise) is `None`, the
function panics instead of returning an `Err` (provided execution reaches
the unwrap, i.e. the range lookup succeeds and the CET index is in range). -/
theorem get_signed_cet_unwrap_panics
    (env : Env) (contract : SignedContract) (contract_info : ContractInfo)
    (adaptor_info : AdaptorInfo) (attestations : List (Nat × OracleAttestation))
    (range_info : RangeInfo) (oracle_sigs : List Sig) (cet0 : Transaction)
    (hr : env.get_range_info_and_oracle_sigs contract_info adaptor_info attestations
      = .ok (range_info, oracle_sigs))
    (hc : contract.accepted_contract.dlc_transactions.cets[range_info.cet_index]?
      = some cet0) :
    (contract.accepted_contract.offered_contract.is_offer_party = true →
      contract.accepted_contract.adaptor_signatures = none →
      get_signed_cet env contract contract_info adaptor_info attestations = .panic) ∧
    (contract.accepted_contract.offered_contract.is_offer_party = false →
      contract.adaptor_signatures = none →
      get_signed_cet env contract contract_info adaptor_info attestations = .panic) := by
  constructor
  · intro h1 h2
    simp [get_signed_cet, hr, listGet, hc, h1, h2]
  · intro h1 h2
    simp [get_signed_cet, hr, listGet, hc, h1, h2]

/-- A signed contract whose accept-side adaptor-signature field is `None`. -/
def sampleSignedNoSigs : SignedContract :=
  { sampleSigned with
    accepted_contract := { sampleAccepted with adaptor_signatures := none } }

/-- Witness for C10: a concrete offer-party contract whose accept-side
adaptor-signature field is `None` makes `get_signed_cet` panic. -/
theorem get_signed_cet_unwrap_panics_witness :
    sampleSignedNoSigs.accepted_contract.adaptor_signatures = none ∧
    get_signed_cet okEnv sampleSignedNoSigs 1 0 [] = .panic :=
  ⟨rfl,
    (get_signed_cet_unwrap_panics okEnv sampleSignedNoSigs 1 0 []
      { cet_index := 0, adaptor_index := 0 } [] sampleTx rfl rfl).1 rfl rfl⟩

/-! ## Claim C9 -/

theorem vass_finish_fields (env : Env) (oc : OfferedContract) (ap : PartyParams)
    (fii : List FundingInputInfo) (rs : Sig) (sigs : List AdaptorSignature)
    (v : Nat) (sk : SecretKey) (isp fspk : ScriptBuf) (fund refund : Transaction)
    (cid : Option ChannelId) (cets : List Transaction) (infos : List AdaptorInfo)
    (sc : SignedContract) (own : List AdaptorSignature)
    (h : vass_finish env oc ap fii rs sigs v sk isp fspk fund refund cid cets infos
      = .ok (sc, own)) :
    sc.accepted_contract.adaptor_signatures = some sigs ∧
    sc.adaptor_signatures = none := by
  unfold vass_finish at h
  obtain ⟨o1, h1, h⟩ := bind_eq_ok h
  try dsimp only at h
  obtain ⟨o2, h2, h⟩ := bind_eq_ok h
  try dsimp only at h
  obtain ⟨o3, h3, h⟩ := bind_eq_ok h
  try dsimp only at h
  simp only [DlcResult.ok.injEq, Prod.mk.injEq] at h
  obtain ⟨hsc, hown⟩ := h
  rw [← hsc]
  exact ⟨rfl, rfl⟩

theorem vs_finish_fields (env : Env) (ac : AcceptedContract) (rs : Sig)
    (sigs : List AdaptorSignature) (fs : FundingSignatures)
    (cid : Option ChannelId) (sc : SignedContract) (tx : Transaction)
    (h : vs_finish env ac rs sigs fs cid = .ok (sc, tx)) :
    sc.adaptor_signatures = some sigs ∧ sc.accepted_contract = ac := by
  unfold vs_finish at h
  obtain ⟨f1, h1, h⟩ := bind_eq_ok h
  try dsimp only at h
  obtain ⟨f2, h2, h⟩ := bind_eq_ok h
  try dsimp only at h
  simp only [DlcResult.ok.injEq, Prod.mk.injEq] at h
  obtain ⟨hsc, htx⟩ := h
  rw [← hsc]
  exact ⟨rfl, rfl⟩

/-- C9: every `SignedContract` constructed by
`verify_accepted_and_sign_contract_internal` has
`accepted_contract.adaptor_signatures` equal to `Some` of the counter-party's
(accept side's) adaptor signatures and its own `adaptor_signatures` field
equal to `None`, while every `SignedContract` constructed by
`verify_signed_contract_internal` has `adaptor_signatures` equal to `Some` of
the counter-party's (offer side's) signatures; hence on each construction
path the field that `get_signed_cet` reads for that path's `is_offer_party`
value is populated (its `unwrap` succeeds with the counter-party's
signatures). -/
theorem signed_contract_counterparty_sigs_populated :
    (∀ (env : Env) (oc : OfferedContract) (ap : PartyParams)
      (fii : List FundingInputInfo) (rs : Sig) (sigs : List AdaptorSignature)
      (v : Nat) (sk : SecretKey) (isp : Option ScriptBuf)
      (cap : Option PublicKey) (dt : DlcTransactions) (cid : Option ChannelId)
      (sc : SignedContract) (own : List AdaptorSignature),
      verify_accepted_and_sign_contract_internal env oc ap fii rs sigs v sk isp
        cap dt cid = .ok (sc, own) →
      sc.accepted_contract.adaptor_signatures = some sigs ∧
      sc.adaptor_signatures = none ∧
      unwrapO sc.accepted_contract.adaptor_signatures = .ok sigs) ∧
    (∀ (env : Env) (ac : AcceptedContract) (rs : Sig)
      (sigs : List AdaptorSignature) (fs : FundingSignatures) (v : Nat)
      (isp : Option ScriptBuf) (cap : Option PublicKey) (cid : Option ChannelId)
      (sc : SignedContract) (tx : Transaction),
      verify_signed_contract_internal env ac rs sigs fs v isp cap cid = .ok (sc, tx) →
      sc.adaptor_signatures = some sigs ∧
      unwrapO sc.adaptor_signatures = .ok sigs) := by
  constructor
  · intro env oc ap fii rs sigs v sk isp cap dt cid sc own h
    unfold verify_accepted_and_sign_contract_internal at h
    obtain ⟨u1, hu1, h⟩ := bind_eq_ok h
    try dsimp only at h
    obtain ⟨u2, hu2, h⟩ := bind_eq_ok h
    try dsimp only at h
    obtain ⟨u3, hu3, h⟩ := bind_eq_ok h
    try dsimp only at h
    obtain ⟨u4, hu4, h⟩ := bind_eq_ok h
    try dsimp only at h
    obtain ⟨u5, hu5, h⟩ := bind_eq_ok h
    try dsimp only at h
    obtain ⟨u6, hu6, h⟩ := bind_eq_ok h
    try dsimp only at h
    have hf := vass_finish_fields _ _ _ _ _ _ _ _ _ _ _ _ _ _ _ _ _ h
    refine ⟨hf.1, hf.2, ?_⟩
    rw [hf.1]
    rfl
  · intro env ac rs sigs fs v isp cap cid sc tx h
    unfold verify_signed_contract_internal at h
    obtain ⟨u1, hu1, h⟩ := bind_eq_ok h
    try dsimp only at h
    obtain ⟨u2, hu2, h⟩ := bind_eq_ok h
    try dsimp only at h
    have hf := vs_finish_fields _ _ _ _ _ _ _ _ h
    refine ⟨hf.1, ?_⟩
    rw [hf.1]
    rfl

/-- The signed contract produced by the concrete offer-side verification run
used in the C9 witness. -/
def c9sc : SignedContract :=
  { accepted_contract :=
      { offered_contract := sampleOffered, accept_params := sampleParty 20 60,
        funding_inputs := [], adaptor_infos := [0],
        adaptor_signatures := some [11], accept_refund_signature := 3,
        dlc_transactions := sampleDlcTxs },
    adaptor_signatures := none, offer_refund_signature := 7,
    funding_signatures := { funding_signatures := [] }, channel_id := none }

/-- The signed contract produced by the concrete accept-side verification run
used in the C9 witness. -/
def c9sc2 : SignedContract :=
  { accepted_contract := sampleAccepted, adaptor_signatures := some [21],
    offer_refund_signature := 4,
    funding_signatures := { funding_signatures := [] }, channel_id := none }

/-- Witness for C9: concrete successful runs of both verification functions,
with the stored counter-party signature fields and successful unwraps read
off by applying the theorem. -/
theorem signed_contract_counterparty_sigs_populated_witness :
    verify_accepted_and_sign_contract_internal okEnv sampleOffered
      (sampleParty 20 60) [] 3 [11] 100 5 none none sampleDlcTxs none
      = .ok (c9sc, []) ∧
    (c9sc.accepted_contract.adaptor_signatures = some [11] ∧
      c9sc.adaptor_signatures = none ∧
      unwrapO c9sc.accepted_contract.adaptor_signatures = .ok [11]) ∧
    verify_signed_contract_internal okEnv sampleAccepted 4 [21]
      { funding_signatures := [] } 100 none none none
      = .ok (c9sc2, { input := [], output := [] }) ∧
    (c9sc2.adaptor_signatures = some [21] ∧
      unwrapO c9sc2.adaptor_signatures = .ok [21]) :=
  ⟨rfl,
    signed_contract_counterparty_sigs_populated.1 okEnv sampleOffered
      (sampleParty 20 60) [] 3 [11] 100 5 none none sampleDlcTxs none c9sc [] rfl,
    rfl,
    signed_contract_counterparty_sigs_populated.2 okEnv sampleAccepted 4 [21]
      { funding_signatures := [] } 100 none none none c9sc2
      { input := [], output := [] } rfl⟩

/-! ## Claim C2 -/

theorem accept_internal_accept_params (env : Env) (oc : OfferedContract)
    (ap : PartyParams) (fis : List FundingInputInfo) (sk : SecretKey) (v : Nat)
    (isp : Option ScriptBuf) (dt : DlcTransactions) (ac : AcceptedContract)
    (sigs : List AdaptorSignature)
    (h : accept_contract_internal env oc ap fis sk v isp dt = .ok (ac, sigs)) :
    ac.accept_params = ap := by
  unfold accept_contract_internal at h
  obtain ⟨u1, hu1, h⟩ := bind_eq_ok h
  try dsimp only at h
  obtain ⟨u2, hu2, h⟩ := bind_eq_ok h
  try dsimp only at h
  obtain ⟨u3, hu3, h⟩ := bind_eq_ok h
  try dsimp only at h
  obtain ⟨u4, hu4, h⟩ := bind_eq_ok h
  try dsimp only at h
  obtain ⟨u5, hu5, h⟩ := bind_eq_ok h
  try dsimp only at h
  obtain ⟨u6, hu6, h⟩ := bind_eq_ok h
  try dsimp only at h
  simp only [DlcResult.ok.injEq, Prod.mk.injEq] at h
  obtain ⟨hac, hsigs⟩ := h
  rw [← hac]

/-- An accept message whose `accept_collateral` (99) does not complement the
sample offered contract's offer collateral (40) to its total collateral
(100). -/
def mismatchAccept : AcceptDlc :=
  { accept_collateral := 99, funding_pubkey := 20, change_spk := [2],
    change_serial_id := 1, payout_spk := [3], payout_serial_id := 2,
    funding_inputs := [],
    cet_adaptor_signatures := { ecdsa_adaptor_signatures := [{ signature := 11 }] },
    refund_signature := 3 }

/-- Counterexample for C2 as stated: `verify_accepted_and_sign_contract`
accepts (returns a successful result for) a concrete accept message whose
`accept_collateral` does not make the sum with the offer collateral equal the
offered contract's `total_collateral`; no rejection of the mismatched sum
occurs anywhere in the function. -/
theorem collateral_sum_not_checked_counterexample :
    (verify_accepted_and_sign_contract okEnv sampleOffered mismatchAccept).isOk
      = true ∧
    sampleOffered.offer_params.collateral + mismatchAccept.accept_collateral ≠
      sampleOffered.total_collateral := by
  constructor
  · rfl
  · decide

/-- C2 (amended): the invariant `offer_collateral + accept_collateral ==
total_collateral` is established at the accept phase only by construction:
`accept_contract` requests accept-side party params for exactly
`total_collateral` minus the offer party's collateral (so the sum holds
whenever the wallet returns params with the requested collateral);
`verify_accepted_and_sign_contract` performs no check of the sum — it accepts
messages with a mismatched `accept_collateral`, merely recomputing the total
collateral used for subsequent contract infos as the sum of the two stated
collaterals. -/
theorem collateral_sum_established_at_accept_only
    (env : Env) (oc : OfferedContract)
    (hw : ∀ c f p s fi, env.get_party_params c f = .ok (p, s, fi) →
      p.collateral = c)
    (hle : oc.offer_params.collateral ≤ oc.total_collateral) :
    (∀ ac msg, accept_contract env oc = .ok (ac, msg) →
      oc.offer_params.collateral + ac.accept_params.collateral =
        oc.total_collateral) ∧
    ((verify_accepted_and_sign_contract okEnv sampleOffered mismatchAccept).isOk
        = true ∧
      sampleOffered.offer_params.collateral + mismatchAccept.accept_collateral ≠
        sampleOffered.total_collateral) := by
  constructor
  · intro ac msg h
    unfold accept_contract at h
    obtain ⟨w, hwrun, h⟩ := bind_eq_ok h
    try dsimp only at h
    obtain ⟨u2, hu2, h⟩ := bind_eq_ok h
    try dsimp only at h
    obtain ⟨u3, hu3, h⟩ := bind_eq_ok h
    try dsimp only at h
    obtain ⟨u4, hu4, h⟩ := bind_eq_ok h
    try dsimp only at h
    obtain ⟨p, hint, h⟩ := bind_eq_ok h
    try dsimp only at h
    simp only [DlcResult.ok.injEq, Prod.mk.injEq] at h
    obtain ⟨hac, hmsg⟩ := h
    have hap : p.1.accept_params = w.1 :=
      accept_internal_accept_params _ _ _ _ _ _ _ _ _ _ (by rw [← hint])
    have hcoll : w.1.collateral =
        oc.total_collateral - oc.offer_params.collateral :=
      hw _ _ _ _ _ (liftE_eq_ok hwrun)
    rw [← hac, hap, hcoll]
    omega
  · constructor
    · rfl
    · decide

/-- Witness for C2 (amended): the concrete mismatch run, obtained by applying
the theorem with its wallet-honesty and collateral-bound hypotheses
discharged at `okEnv` and the sample offered contract. -/
theorem collateral_sum_established_at_accept_only_witness :
    (verify_accepted_and_sign_contract okEnv sampleOffered mismatchAccept).isOk
      = true ∧
    sampleOffered.offer_params.collateral + mismatchAccept.accept_collateral ≠
      sampleOffered.total_collateral :=
  (collateral_sum_established_at_accept_only okEnv sampleOffered
    (by
      intro c f p s fi h
      simp only [okEnv, Except.ok.injEq, Prod.mk.injEq] at h
      obtain ⟨hp, hs, hfi⟩ := h
      rw [← hp]
      rfl)
    (by decide)).2

/-! ## Claim C3 -/

theorem accept_cets_loop_spec (env : Env) (oc : OfferedContract)
    (ap : PartyParams) (sk : SecretKey) (spk : ScriptBuf) (v : Nat) (tc : Nat)
    (cin : TxIn) :
    ∀ (infos : List ContractInfo) (cets : List Transaction)
      (ainfos : List AdaptorInfo) (asigs : List AdaptorSignature)
      (out : List Transaction × List AdaptorInfo × List AdaptorSignature),
      accept_cets_loop env oc ap sk spk v tc cin infos cets ainfos asigs = .ok out →
      ∃ css sss ais,
        spec_subsequent_infos env oc ap sk spk v tc cin infos asigs.length =
          .ok (css, sss, ais) ∧
        out.1 = cets ++ css.flatten ∧
        out.2.1 = ainfos ++ ais ∧
        out.2.2 = asigs ++ sss.flatten := by
  intro infos
  induction infos with
  | nil =>
    intro cets ainfos asigs out h
    unfold accept_cets_loop at h
    simp only [DlcResult.ok.injEq] at h
    refine ⟨[], [], [], rfl, ?_, ?_, ?_⟩ <;> simp [← h]
  | cons ci rest ih =>
    intro cets ainfos asigs out h
    unfold accept_cets_loop at h
    obtain ⟨p, hp, h⟩ := bind_eq_ok h
    try dsimp only at h
    obtain ⟨r, hr, h⟩ := bind_eq_ok h
    try dsimp only at h
    obtain ⟨css, sss, ais, hspec, h1, h2, h3⟩ := ih _ _ _ _ h
    refine ⟨(env.create_cets cin oc.offer_params.payout_script_pubkey
        oc.offer_params.payout_serial_id ap.payout_script_pubkey
        ap.payout_serial_id p 0) :: css, r.2 :: sss, r.1 :: ais, ?_, ?_, ?_, ?_⟩
    · unfold spec_subsequent_infos
      rw [hp]
      simp only [liftE_ok_simp, ok_bind]
      rw [hr]
      simp only [liftE_ok_simp, ok_bind]
      rw [List.length_append] at hspec
      rw [hspec]
      simp only [ok_bind]
    · rw [h1]
      simp [List.append_assoc]
    · rw [h2]
      simp [List.append_assoc]
    · rw [h3]
      simp [List.append_assoc]

/-- C3: for an offered contract with more than one contract info,
`accept_contract_internal` generates the CETs of each subsequent contract
info from the shared input of the first CET (`cets[0].input[0]`) via
`create_cets`, appends them to the CET list in declaration order of the
contract infos, and builds one flat adaptor-signature list in which each
contract info's signatures start at the index equal to the number of
signatures produced by all prior contract infos (the running
`adaptor_sigs.len()` is passed as the start index): the source loop agrees
with the spec-side recursion `spec_subsequent_infos`, which passes the
explicitly accumulated prior signature count and concatenates per-info CET
and signature lists in declaration order. -/
theorem accept_internal_multi_info_structure (env : Env)
    (oc : OfferedContract) (ap : PartyParams) (fis : List FundingInputInfo)
    (sk : SecretKey) (v : Nat) (isp : Option ScriptBuf) (dt : DlcTransactions)
    (ac : AcceptedContract) (sigs : List AdaptorSignature) (spk : ScriptBuf)
    (c0 : Transaction) (cin : TxIn) (ci0 : ContractInfo) (ai0 : AdaptorInfo)
    (sigs0 : List AdaptorSignature)
    (hspk : spk = isp.getD dt.funding_script_pubkey)
    (hc : dt.cets[0]? = some c0)
    (hi : c0.input[0]? = some cin)
    (hk : oc.contract_info[0]? = some ci0)
    (h0 : env.get_adaptor_info ci0 oc.total_collateral sk spk v dt.cets 0 =
      .ok (ai0, sigs0))
    (h : accept_contract_internal env oc ap fis sk v isp dt = .ok (ac, sigs)) :
    ∃ css sss ais,
      spec_subsequent_infos env oc ap sk spk v oc.total_collateral cin
        (oc.contract_info.drop 1) sigs0.length = .ok (css, sss, ais) ∧
      ac.dlc_transactions.cets = dt.cets ++ css.flatten ∧
      ac.adaptor_infos = ai0 :: ais ∧
      sigs = sigs0 ++ sss.flatten := by
  subst hspk
  unfold accept_contract_internal at h
  rw [listGet, hc] at h
  simp only [ok_bind] at h
  rw [listGet, hi] at h
  simp only [ok_bind] at h
  rw [listGet, hk] at h
  simp only [ok_bind] at h
  rw [h0] at h
  simp only [liftE_ok_simp, ok_bind] at h
  obtain ⟨acc, hloop, h⟩ := bind_eq_ok h
  try dsimp only at h
  obtain ⟨rs, hrs, h⟩ := bind_eq_ok h
  try dsimp only at h
  simp only [DlcResult.ok.injEq, Prod.mk.injEq] at h
  obtain ⟨hac, hsigs⟩ := h
  obtain ⟨css, sss, ais, hspec, h1, h2, h3⟩ :=
    accept_cets_loop_spec env oc ap sk _ v oc.total_collateral cin
      (oc.contract_info.drop 1) dt.cets [ai0] sigs0 acc hloop
  refine ⟨css, sss, ais, hspec, ?_, ?_, ?_⟩
  · rw [← hac]
    exact h1
  · rw [← hac]
    simpa using h2
  · rw [← hsigs]
    exact h3

/-- An offered contract carrying two contract infos (a disjunction). -/
def multiOffered : OfferedContract := { sampleOffered with contract_info := [1, 2] }

/-- An environment whose adaptor engine returns two signatures per contract
info (encoding the received start index) and whose CET builder returns one
CET built from the given input template. -/
def multiEnv : Env :=
  { okEnv with
    get_adaptor_info := fun _ _ _ _ _ _ s => .ok (s, [100 + s, 200 + s]),
    create_cets := fun cin _ _ _ _ _ _ => [{ input := [cin], output := [] }] }

/-- The accepted contract produced by the concrete two-contract-info run used
in the C3 witness. -/
def c3ac : AcceptedContract :=
  { offered_contract := multiOffered, accept_params := sampleParty 20 60,
    funding_inputs := [], adaptor_infos := [0, 2],
    adaptor_signatures := none, accept_refund_signature := 7,
    dlc_transactions :=
      { fund := { input := [], output := [] },
        cets := [sampleTx, { input := [sampleTxIn], output := [] }],
        refund := { input := [], output := [] },
        funding_script_pubkey := [9] } }

/-- Witness for C3: a concrete run with two contract infos, where the second
contract info's CETs are built from the first CET's first input, appended
after the first contract info's CETs, and its two adaptor signatures start at
index 2 (the number produced by the first contract info). -/
theorem accept_internal_multi_info_structure_witness :
    accept_contract_internal multiEnv multiOffered (sampleParty 20 60) [] 5 100
      none sampleDlcTxs = .ok (c3ac, [100, 200, 102, 202]) ∧
    ∃ css sss ais,
      spec_subsequent_infos multiEnv multiOffered (sampleParty 20 60) 5 [9] 100
        multiOffered.total_collateral sampleTxIn
        (multiOffered.contract_info.drop 1) 2 = .ok (css, sss, ais) ∧
      c3ac.dlc_transactions.cets = sampleDlcTxs.cets ++ css.flatten ∧
      c3ac.adaptor_infos = 0 :: ais ∧
      ([100, 200, 102, 202] : List AdaptorSignature) = [100, 200] ++ sss.flatten :=
  ⟨rfl,
    accept_internal_multi_info_structure multiEnv multiOffered
      (sampleParty 20 60) [] 5 100 none sampleDlcTxs c3ac [100, 200, 102, 202]
      [9] sampleTx sampleTxIn 1 0 [100, 200] rfl rfl rfl rfl rfl rfl⟩

/-! ## Claim C1 -/

theorem isOk_bind_congr {α β : Type} {x : DlcResult α} {f g : α → DlcResult β}
    (hfg : ∀ a, (f a).isOk = (g a).isOk) : (x >>= f).isOk = (x >>= g).isOk := by
  cases x with
  | ok a => exact hfg a
  | err e => rfl
  | panic => rfl

theorem specVG_append (valid : AdaptorSignature → Bool) (ci : ContractInfo)
    (tc : Nat) (pk : PublicKey) (spk : ScriptBuf) (v : Nat)
    (cets : List Transaction) (sigs extra : List AdaptorSignature) (start : Nat)
    (r : AdaptorInfo × Nat)
    (h : specVerifyAndGetAdaptorInfo valid ci tc pk spk v cets sigs start = .ok r) :
    specVerifyAndGetAdaptorInfo valid ci tc pk spk v cets (sigs ++ extra) start
      = .ok r := by
  unfold specVerifyAndGetAdaptorInfo at h ⊢
  by_cases hc : start + cets.length ≤ sigs.length ∧
      ((sigs.drop start).take cets.length).all valid = true
  · obtain ⟨h1, h2⟩ := hc
    rw [if_pos ⟨h1, h2⟩] at h
    have hstart : start ≤ sigs.length := le_trans (Nat.le_add_right _ _) h1
    have htake : ((sigs ++ extra).drop start).take cets.length =
        (sigs.drop start).take cets.length := by
      rw [List.drop_append_of_le_length hstart]
      apply List.take_append_of_le_length
      simp only [List.length_drop]
      omega
    rw [if_pos]
    · exact h
    · refine ⟨?_, ?_⟩
      · simp only [List.length_append]
        omega
      · rw [htake]
        exact h2
  · rw [if_neg hc] at h
    exact Except.noConfusion h

theorem specVA_append (valid : AdaptorSignature → Bool) (count : AdaptorInfo → Nat)
    (ci : ContractInfo) (pk : PublicKey) (spk : ScriptBuf) (v : Nat)
    (cets : List Transaction) (sigs extra : List AdaptorSignature) (start : Nat)
    (ai : AdaptorInfo) (r : Nat)
    (h : specVerifyAdaptorInfo valid count ci pk spk v cets sigs start ai = .ok r) :
    specVerifyAdaptorInfo valid count ci pk spk v cets (sigs ++ extra) start ai
      = .ok r := by
  unfold specVerifyAdaptorInfo at h ⊢
  by_cases hc : start + count ai ≤ sigs.length ∧
      ((sigs.drop start).take (count ai)).all valid = true
  · obtain ⟨h1, h2⟩ := hc
    rw [if_pos ⟨h1, h2⟩] at h
    have hstart : start ≤ sigs.length := le_trans (Nat.le_add_right _ _) h1
    have htake : ((sigs ++ extra).drop start).take (count ai) =
        (sigs.drop start).take (count ai) := by
      rw [List.drop_append_of_le_length hstart]
      apply List.take_append_of_le_length
      simp only [List.length_drop]
      omega
    rw [if_pos]
    · exact h
    · refine ⟨?_, ?_⟩
      · simp only [List.length_append]
        omega
      · rw [htake]
        exact h2
  · rw [if_neg hc] at h
    exact Except.noConfusion h

theorem verify_cets_loop_append (env : Env) (valid : AdaptorSignature → Bool)
    (hv : env.verify_and_get_adaptor_info = specVerifyAndGetAdaptorInfo valid)
    (oc : OfferedContract) (ap : PartyParams) (v : Nat) (fspk : ScriptBuf)
    (tc : Nat) (cin : TxIn) (sigs extra : List AdaptorSignature) :
    ∀ (infos : List ContractInfo) (cets : List Transaction)
      (ainfos : List AdaptorInfo) (idx : Nat)
      (out : List Transaction × List AdaptorInfo × Nat),
      verify_cets_loop env oc ap v fspk tc cin sigs infos cets ainfos idx = .ok out →
      verify_cets_loop env oc ap v fspk tc cin (sigs ++ extra) infos cets ainfos idx
        = .ok out := by
  intro infos
  induction infos with
  | nil =>
    intro cets ainfos idx out h
    exact h
  | cons ci rest ih =>
    intro cets ainfos idx out h
    unfold verify_cets_loop at h ⊢
    obtain ⟨p, hp, h⟩ := bind_eq_ok h
    try dsimp only at h
    obtain ⟨r, hr, h⟩ := bind_eq_ok h
    try dsimp only at h
    rw [hp]
    simp only [ok_bind]
    have hr2 : specVerifyAndGetAdaptorInfo valid ci oc.total_collateral
        ap.fund_pubkey fspk v
        (env.create_cets cin oc.offer_params.payout_script_pubkey
          oc.offer_params.payout_serial_id ap.payout_script_pubkey
          ap.payout_serial_id p 0) sigs idx = .ok r := by
      rw [← hv]
      exact liftE_eq_ok hr
    have hr3 := specVG_append valid _ _ _ _ _ _ _ extra _ _ hr2
    rw [hv, hr3]
    simp only [liftE_ok_simp, ok_bind]
    exact ih _ _ _ _ h

theorem verify_adaptor_loop_append (env : Env) (valid : AdaptorSignature → Bool)
    (count : AdaptorInfo → Nat)
    (hv2 : env.verify_adaptor_info = specVerifyAdaptorInfo valid count)
    (cpk : PublicKey) (spk : ScriptBuf) (v : Nat) (cets : List Transaction)
    (sigs extra : List AdaptorSignature) :
    ∀ (pairs : List (AdaptorInfo × ContractInfo)) (start : Nat) (out : Nat),
      verify_adaptor_loop env cpk spk v cets sigs pairs start = .ok out →
      verify_adaptor_loop env cpk spk v cets (sigs ++ extra) pairs start = .ok out := by
  intro pairs
  induction pairs with
  | nil =>
    intro start out h
    exact h
  | cons pr rest ih =>
    intro start out h
    obtain ⟨ai, ci⟩ := pr
    unfold verify_adaptor_loop at h ⊢
    obtain ⟨nx, hnx, h⟩ := bind_eq_ok h
    try dsimp only at h
    have hn2 : specVerifyAdaptorInfo valid count ci cpk spk v cets sigs start ai
        = .ok nx := by
      rw [← hv2]
      exact liftE_eq_ok hnx
    have hn3 := specVA_append valid count _ _ _ _ _ _ extra _ _ _ hn2
    rw [hv2, hn3]
    simp only [liftE_ok_simp, ok_bind]
    exact ih _ _ h

theorem vass_finish_isOk_sigs (env : Env) (oc : OfferedContract)
    (ap : PartyParams) (fii : List FundingInputInfo) (rs : Sig) (v : Nat)
    (sk : SecretKey) (isp fspk : ScriptBuf) (fund refund : Transaction)
    (cid : Option ChannelId) (cets : List Transaction)
    (infos : List AdaptorInfo) (sigs1 sigs2 : List AdaptorSignature) :
    (vass_finish env oc ap fii rs sigs1 v sk isp fspk fund refund cid cets
      infos).isOk =
    (vass_finish env oc ap fii rs sigs2 v sk isp fspk fund refund cid cets
      infos).isOk := by
  unfold vass_finish
  apply isOk_bind_congr
  intro a
  apply isOk_bind_congr
  intro b
  apply isOk_bind_congr
  intro c
  rfl

theorem vs_finish_isOk_sigs (env : Env) (ac : AcceptedContract) (rs : Sig)
    (fs : FundingSignatures) (cid : Option ChannelId)
    (sigs1 sigs2 : List AdaptorSignature) :
    (vs_finish env ac rs sigs1 fs cid).isOk =
    (vs_finish env ac rs sigs2 fs cid).isOk := by
  unfold vs_finish
  apply isOk_bind_congr
  intro a
  apply isOk_bind_congr
  intro b
  rfl

/-- C1 (amended): both verification passes advance through the flat
adaptor-signature array exactly once — each contract info resumes at the
cursor the previous one returned — but neither
`verify_accepted_and_sign_contract_internal` nor
`verify_signed_contract_internal` compares the final cursor with the length
of the provided list: unused trailing signatures are silently ignored, so a
verification that succeeds on a signature list also succeeds on that list
extended by arbitrary trailing signatures (with the adaptor engine behaving
as the specification describes it). -/
theorem trailing_adaptor_sigs_ignored (env : Env)
    (valid : AdaptorSignature → Bool) (count : AdaptorInfo → Nat)
    (hv : env.verify_and_get_adaptor_info = specVerifyAndGetAdaptorInfo valid)
    (hv2 : env.verify_adaptor_info = specVerifyAdaptorInfo valid count)
    (oc : OfferedContract) (ap : PartyParams) (fii : List FundingInputInfo)
    (rs : Sig) (sigs extra : List AdaptorSignature) (v : Nat) (sk : SecretKey)
    (isp : Option ScriptBuf) (cap : Option PublicKey) (dt : DlcTransactions)
    (cid : Option ChannelId) (ac : AcceptedContract) (rsB : Sig)
    (fs : FundingSignatures) (vB : Nat) (ispB : Option ScriptBuf)
    (capB : Option PublicKey) (cidB : Option ChannelId) :
    ((verify_accepted_and_sign_contract_internal env oc ap fii rs sigs v sk isp
        cap dt cid).isOk = true →
      (verify_accepted_and_sign_contract_internal env oc ap fii rs (sigs ++ extra)
        v sk isp cap dt cid).isOk = true) ∧
    ((verify_signed_contract_internal env ac rsB sigs fs vB ispB capB cidB).isOk
        = true →
      (verify_signed_contract_internal env ac rsB (sigs ++ extra) fs vB ispB
        capB cidB).isOk = true) := by
  constructor
  · intro h
    obtain ⟨p, hp⟩ := isOk_exists h
    unfold verify_accepted_and_sign_contract_internal at hp ⊢
    try dsimp only
    obtain ⟨u1, hu1, hp⟩ := bind_eq_ok hp
    try dsimp only at hp
    obtain ⟨ci0, hci, hp⟩ := bind_eq_ok hp
    try dsimp only at hp
    obtain ⟨r0, hr0, hp⟩ := bind_eq_ok hp
    try dsimp only at hp
    obtain ⟨c0, hc0, hp⟩ := bind_eq_ok hp
    try dsimp only at hp
    obtain ⟨cin, hcin, hp⟩ := bind_eq_ok hp
    try dsimp only at hp
    obtain ⟨acc, hloop, hp⟩ := bind_eq_ok hp
    try dsimp only at hp
    rw [hu1]
    simp only [ok_bind]
    rw [hci]
    simp only [ok_bind]
    have hr2 : specVerifyAndGetAdaptorInfo valid ci0 oc.total_collateral
        (cap.getD ap.fund_pubkey) (isp.getD dt.funding_script_pubkey) v dt.cets
        sigs 0 = .ok r0 := by
      rw [← hv]
      exact liftE_eq_ok hr0
    have hr3 := specVG_append valid _ _ _ _ _ _ _ extra _ _ hr2
    rw [hv, hr3]
    simp only [liftE_ok_simp, ok_bind]
    rw [hc0]
    simp only [ok_bind]
    rw [hcin]
    simp only [ok_bind]
    rw [verify_cets_loop_append env valid hv oc ap v dt.funding_script_pubkey
      (oc.offer_params.collateral + ap.collateral) cin sigs extra
      (oc.contract_info.drop 1) dt.cets [r0.1] r0.2 acc hloop]
    simp only [ok_bind]
    rw [vass_finish_isOk_sigs env oc ap fii rs v sk
      (isp.getD dt.funding_script_pubkey) dt.funding_script_pubkey dt.fund
      dt.refund cid acc.1 acc.2.1 (sigs ++ extra) sigs]
    rw [hp]
    rfl
  · intro h
    obtain ⟨p, hp⟩ := isOk_exists h
    unfold verify_signed_contract_internal at hp ⊢
    try dsimp only
    obtain ⟨u1, hu1, hp⟩ := bind_eq_ok hp
    try dsimp only at hp
    obtain ⟨nx, hnx, hp⟩ := bind_eq_ok hp
    try dsimp only at hp
    rw [hu1]
    simp only [ok_bind]
    rw [verify_adaptor_loop_append env valid count hv2
      (capB.getD ac.offered_contract.offer_params.fund_pubkey)
      (ispB.getD ac.dlc_transactions.funding_script_pubkey) vB
      ac.dlc_transactions.cets sigs extra
      (ac.adaptor_infos.zip ac.offered_contract.contract_info) 0 nx hnx]
    simp only [ok_bind]
    rw [vs_finish_isOk_sigs env ac rsB fs cidB (sigs ++ extra) sigs]
    rw [hp]
    rfl

/-- An environment whose adaptor engine is the spec-modelled one: every
signature is valid, and each cached adaptor info covers one CET. -/
def specEnv : Env :=
  { okEnv with
    verify_and_get_adaptor_info := specVerifyAndGetAdaptorInfo (fun _ => true),
    verify_adaptor_info := specVerifyAdaptorInfo (fun _ => true) (fun _ => 1) }

/-- An accept message with a correct collateral split but one unused trailing
adaptor signature (two signatures against a single CET). -/
def c1AcceptMsg : AcceptDlc :=
  { accept_collateral := 60, funding_pubkey := 20, change_spk := [2],
    change_serial_id := 1, payout_spk := [3], payout_serial_id := 2,
    funding_inputs := [],
    cet_adaptor_signatures :=
      { ecdsa_adaptor_signatures := [{ signature := 11 }, { signature := 99 }] },
    refund_signature := 3 }

/-- A sign message with one unused trailing adaptor signature (two signatures
against a single cached adaptor info covering one CET). -/
def c1SignMsg : SignDlc :=
  { cet_adaptor_signatures :=
      { ecdsa_adaptor_signatures := [{ signature := 21 }, { signature := 99 }] },
    refund_signature := 4, funding_signatures := { funding_signatures := [] } }

/-- Counterexample for C1 as stated: with the spec-modelled adaptor engine, a
concrete accept message carrying one unused trailing adaptor signature beyond
the total CET count (list of length 2, cursor ends at 1) is NOT rejected by
`verify_accepted_and_sign_contract`, and likewise `verify_signed_contract`
succeeds although its final `adaptor_sig_start` (1) differs from the length
of the sign message's adaptor-signature list (2). -/
theorem trailing_adaptor_sigs_counterexample :
    (verify_accepted_and_sign_contract specEnv sampleOffered c1AcceptMsg).isOk
      = true ∧
    c1AcceptMsg.cet_adaptor_signatures.ecdsa_adaptor_signatures.length = 2 ∧
    sampleDlcTxs.cets.length = 1 ∧
    specVerifyAndGetAdaptorInfo (fun _ => true) 1 100 20 [9] 100
      sampleDlcTxs.cets [11, 99] 0 = .ok (0, 1) ∧
    (verify_signed_contract specEnv sampleAccepted c1SignMsg).isOk = true ∧
    c1SignMsg.cet_adaptor_signatures.ecdsa_adaptor_signatures.length = 2 ∧
    specVerifyAdaptorInfo (fun _ => true) (fun _ => 1) 1 10 [9] 100
      sampleDlcTxs.cets [21, 99] 0 0 = .ok 1 := by
  refine ⟨?_, rfl, rfl, ?_, ?_, rfl, ?_⟩
  · rfl
  · rfl
  · rfl
  · rfl

/-- Witness for C1 (amended): concrete successful runs of both verification
functions stay successful after appending a trailing signature, obtained by
applying the theorem with its spec-engine hypotheses discharged at
`specEnv`. -/
theorem trailing_adaptor_sigs_ignored_witness :
    (verify_accepted_and_sign_contract_internal specEnv sampleOffered
      (sampleParty 20 60) [] 3 [11] 100 5 none none sampleDlcTxs none).isOk
      = true ∧
    (verify_accepted_and_sign_contract_internal specEnv sampleOffered
      (sampleParty 20 60) [] 3 ([11] ++ [99]) 100 5 none none sampleDlcTxs
      none).isOk = true ∧
    (verify_signed_contract_internal specEnv sampleAccepted 4 [21]
      { funding_signatures := [] } 100 none none none).isOk = true ∧
    (verify_signed_contract_internal specEnv sampleAccepted 4 ([21] ++ [99])
      { funding_signatures := [] } 100 none none none).isOk = true :=
  ⟨rfl,
    (trailing_adaptor_sigs_ignored specEnv (fun _ => true) (fun _ => 1) rfl rfl
      sampleOffered (sampleParty 20 60) [] 3 [11] [99] 100 5 none none
      sampleDlcTxs none sampleAccepted 4 { funding_signatures := [] } 100 none
      none none).1 rfl,
    rfl,
    (trailing_adaptor_sigs_ignored specEnv (fun _ => true) (fun _ => 1) rfl rfl
      sampleOffered (sampleParty 20 60) [] 3 [21] [99] 100 5 none none
      sampleDlcTxs none sampleAccepted 4 { funding_signatures := [] } 100 none
      none none).2 rfl⟩

end DLC
